import Mathlib

/-! # Snake game: the transition engine of `src/game.c`

A shallow embedding of the game-state model (`include/snake.h`) and of the
functions of `src/game.c`, followed by theorems about them.

Modelling conventions

* A C `int` (and the `long` of `get_time_diff_us`) is an `Int`.  Signed overflow is
  undefined in C; the embedding computes with unbounded integers.
* A C array is a total map `Nat → _` from index to element.  The declared capacities
  (`MAX_SNAKE_LENGTH`, `MAX_OBSTACLES`, 4) appear as the constants the code compares
  against; a theorem that needs an index to be in range says so in a hypothesis.
* A function that writes through a pointer returns the new value of what it points to.
* A C truth value that a function returns (`0`/`1`) is a `Bool`; an `int` field that is
  only tested (`food.active`, `speed_boost.active`) stays an `Int`, tested against `0`.
* `rand()` and `gettimeofday()` read the `World`: the sequence of values the successive
  calls of `rand()` return (non-negative, as the C library promises) and the sequence of
  readings the successive calls of `gettimeofday()` return.  A call takes the first
  element and leaves the rest.
* A `for` loop with a counter is a function defined by recursion on the number of
  iterations that remain.
* `abs` is `Int.natAbs`.
-/

namespace SnakeGame

/-! ## Constants (`include/snake.h`, `src/main.c`) -/

def WIDTH : Int := 40
def HEIGHT : Int := 20
def MAX_SNAKE_LENGTH : Int := 51
def WIN_LENGTH : Int := 50
def MAX_OBSTACLES : Int := 20
def SPEED_BOOST_DURATION : Int := 3000000

def DIR_UP : Int := 0
def DIR_RIGHT : Int := 1
def DIR_DOWN : Int := 2
def DIR_LEFT : Int := 3

def GAME_RUNNING : Int := 0
def GAME_OVER : Int := 1
def GAME_QUIT : Int := 2
def GAME_WON : Int := 3

def FOOD_REGULAR : Int := 0
def FOOD_GREEN : Int := 1
def FOOD_GOLD : Int := 2
def FOOD_BLUE : Int := 3

def MOVE_DELAY_HORIZONTAL : Int := 100000
def MOVE_DELAY_VERTICAL : Int := 170000

/-! ## Data model (`include/snake.h`) -/

/-- Coordinates of a cell: `Point`. -/
structure Point where
  x : Int
  y : Int
deriving DecidableEq

/-- The snake: `body[MAX_SNAKE_LENGTH]`, `length`, `direction`. -/
structure Snake where
  body : Nat → Point
  length : Int
  direction : Int

/-- The food item: `position`, `active`, `type`. -/
structure Food where
  position : Point
  active : Int
  type : Int
deriving DecidableEq

/-- The obstacles: `obstacles[MAX_OBSTACLES]`, `count`. -/
structure Obstacles where
  obstacles : Nat → Point
  count : Int

/-- A clock reading: `struct timeval`. -/
structure Timeval where
  tv_sec : Int
  tv_usec : Int
deriving DecidableEq

/-- The speed boost: `active`, `start_time`. -/
structure SpeedBoost where
  active : Int
  start_time : Timeval
deriving DecidableEq

/-- The whole game: `GameState`. -/
structure GameState where
  snake : Snake
  food : Food
  obstacles : Obstacles
  speed_boost : SpeedBoost
  score : Int
  state : Int
  apples_eaten : Int
  special_apples_eaten : Nat → Int

/-- What the program reads from outside: the values of the successive `rand()` calls
and the readings of the successive `gettimeofday()` calls. -/
structure World where
  rand_seq : Nat → Nat
  time_seq : Nat → Timeval

/-- One call of `rand()`: the first value of the sequence, and the rest. -/
def rand (w : World) : Int × World :=
  ((w.rand_seq 0 : Int), { w with rand_seq := fun n => w.rand_seq (n + 1) })

/-- One call of `gettimeofday()`: the first reading of the sequence, and the rest. -/
def gettimeofday (w : World) : Timeval × World :=
  (w.time_seq 0, { w with time_seq := fun n => w.time_seq (n + 1) })

/-! ## Initialisation -/

/-- The first loop of `init_game_state`: `body[i] = (WIDTH / 2 - i, HEIGHT / 2)` for the
`n` indices from `i` on. -/
def init_body_loop (body : Nat → Point) : Nat → Nat → Nat → Point
  | _, 0 => body
  | i, n + 1 =>
    init_body_loop (Function.update body i ⟨WIDTH / 2 - (i : Int), HEIGHT / 2⟩) (i + 1) n

/-- The second loop of `init_game_state`: `special_apples_eaten[i] = 0` for the `n`
indices from `i` on. -/
def init_counters_loop (c : Nat → Int) : Nat → Nat → Nat → Int
  | _, 0 => c
  | i, n + 1 => init_counters_loop (Function.update c i 0) (i + 1) n

/-- `init_game_state`: what it leaves of the prior contents is what it does not write
(the body slots from 3 on, the food position, the obstacle slots, the boost start time). -/
def init_game_state (game : GameState) : GameState :=
  let length : Int := 3
  { snake :=
      { body := init_body_loop game.snake.body 0 length.toNat
        length := length
        direction := DIR_RIGHT }
    food := { game.food with active := 0, type := FOOD_REGULAR }
    obstacles := { game.obstacles with count := 0 }
    speed_boost := { game.speed_boost with active := 0 }
    score := 0
    state := GAME_RUNNING
    apples_eaten := 0
    special_apples_eaten := init_counters_loop game.special_apples_eaten 0 4 }

/-! ## Movement -/

/-- The loop of `update_snake_position`, entered with loop variable `i`:
`for (; i > 0; i--) body[i] = body[i - 1];`. -/
def shift_body : Nat → (Nat → Point) → Nat → Point
  | 0, body => body
  | i + 1, body => shift_body i (Function.update body (i + 1) (body i))

/-- The `switch` of `update_snake_position` on the head; a direction that is none of the
four cases leaves the head where it is. -/
def move_head (direction : Int) (head : Point) : Point :=
  if direction = DIR_UP then { head with y := head.y - 1 }
  else if direction = DIR_RIGHT then { head with x := head.x + 1 }
  else if direction = DIR_DOWN then { head with y := head.y + 1 }
  else if direction = DIR_LEFT then { head with x := head.x - 1 }
  else head

/-- `update_snake_position`: the loop starts at `i = length - 1`. -/
def update_snake_position (snake : Snake) : Snake :=
  let body := shift_body (snake.length - 1).toNat snake.body
  { snake with body := Function.update body 0 (move_head snake.direction (body 0)) }

/-! ## Collisions -/

/-- `check_wall_collision`. -/
def check_wall_collision (snake : Snake) : Bool :=
  decide ((snake.body 0).x ≤ 0) || decide ((snake.body 0).x ≥ WIDTH + 1) ||
    decide ((snake.body 0).y ≤ 0) || decide ((snake.body 0).y ≥ HEIGHT + 1)

/-- The search loop shared by `check_self_collision`, `check_obstacle_collision`,
`is_position_on_snake` and `is_position_on_obstacle`: for the `n` indices from `i` on,
`if (arr[i].x == x && arr[i].y == y) return 1;`, and `return 0` after the loop. -/
def find_point (arr : Nat → Point) (x y : Int) : Nat → Nat → Bool
  | _, 0 => false
  | i, n + 1 =>
    if (arr i).x = x ∧ (arr i).y = y then true else find_point arr x y (i + 1) n

/-- `check_self_collision`: `for (i = 1; i < length; i++)`. -/
def check_self_collision (snake : Snake) : Bool :=
  find_point snake.body (snake.body 0).x (snake.body 0).y 1 (snake.length - 1).toNat

/-- `check_obstacle_collision`: `for (i = 0; i < count; i++)`. -/
def check_obstacle_collision (snake : Snake) (obstacles : Obstacles) : Bool :=
  find_point obstacles.obstacles (snake.body 0).x (snake.body 0).y 0 obstacles.count.toNat

/-- `check_collision`. -/
def check_collision (snake : Snake) (obstacles : Obstacles) : Bool :=
  check_wall_collision snake || check_self_collision snake ||
    check_obstacle_collision snake obstacles

/-- `check_food_collision`. -/
def check_food_collision (snake : Snake) (food : Food) : Bool :=
  if food.active ≠ 0 ∧ (snake.body 0).x = food.position.x ∧
      (snake.body 0).y = food.position.y then true
  else false

/-- `is_position_on_snake`: `for (i = 0; i < length; i++)`. -/
def is_position_on_snake (snake : Snake) (x y : Int) : Bool :=
  find_point snake.body x y 0 snake.length.toNat

/-- `is_position_on_obstacle`: `for (i = 0; i < count; i++)`. -/
def is_position_on_obstacle (obstacles : Obstacles) (x y : Int) : Bool :=
  find_point obstacles.obstacles x y 0 obstacles.count.toNat

/-! ## Food -/

/-- The type chosen by `generate_food` from `r = rand() % 100`. -/
def food_type_of (r : Int) : Int :=
  if r < 60 then FOOD_REGULAR
  else if r < 75 then FOOD_GREEN
  else if r < 85 then FOOD_GOLD
  else FOOD_BLUE

/-- The `while (!valid && attempts < max_attempts)` loop of `generate_food` with `n`
attempts left and `valid = 0`; `position` is the current `food->position`. -/
def generate_food_loop (snake : Snake) (obstacles : Obstacles) :
    Nat → Point → World → Point × World
  | 0, position, w => (position, w)
  | n + 1, _, w =>
    let rx := rand w
    let x := rx.1 % WIDTH + 1
    let ry := rand rx.2
    let y := ry.1 % HEIGHT + 1
    if (!is_position_on_snake snake x y && !is_position_on_obstacle obstacles x y) = true then
      (⟨x, y⟩, ry.2)
    else generate_food_loop snake obstacles n ⟨x, y⟩ ry.2

/-- `generate_food`. -/
def generate_food (snake : Snake) (obstacles : Obstacles) (food : Food) (w : World) :
    Food × World :=
  let r := rand w
  let type := food_type_of (r.1 % 100)
  let p := generate_food_loop snake obstacles 1000 food.position r.2
  ({ position := p.1, active := 1, type := type }, p.2)

/-! ## Direction, growth, obstacles, speed boost -/

/-- `is_valid_direction_change`. -/
def is_valid_direction_change (current_dir new_dir : Int) : Bool :=
  if (current_dir = DIR_UP ∧ new_dir = DIR_DOWN) ∨
      (current_dir = DIR_DOWN ∧ new_dir = DIR_UP) ∨
      (current_dir = DIR_LEFT ∧ new_dir = DIR_RIGHT) ∨
      (current_dir = DIR_RIGHT ∧ new_dir = DIR_LEFT) then false
  else true

/-- The loop of `grow_snake` with `n` iterations left. -/
def grow_snake_loop : Nat → Snake → Snake
  | 0, snake => snake
  | n + 1, snake =>
    grow_snake_loop n
      (if snake.length < MAX_SNAKE_LENGTH then { snake with length := snake.length + 1 }
       else snake)

/-- `grow_snake`: `for (i = 0; i < amount; i++)`. -/
def grow_snake (snake : Snake) (amount : Int) : Snake :=
  grow_snake_loop amount.toNat snake

/-- The `while (!valid && attempts < max_attempts)` loop of `add_obstacle` with `n`
attempts left and `valid = 0`: the final `valid`, the final `new_obstacle`, the world. -/
def add_obstacle_loop (game : GameState) : Nat → Point → World → Bool × Point × World
  | 0, new_obstacle, w => (false, new_obstacle, w)
  | n + 1, _, w =>
    let rx := rand w
    let x := rx.1 % WIDTH + 1
    let ry := rand rx.2
    let y := ry.1 % HEIGHT + 1
    if (!is_position_on_snake game.snake x y &&
        !is_position_on_obstacle game.obstacles x y &&
        !(decide (game.food.active ≠ 0) &&
          decide (Int.natAbs (x - game.food.position.x) < 3) &&
          decide (Int.natAbs (y - game.food.position.y) < 3))) = true then
      (true, ⟨x, y⟩, ry.2)
    else add_obstacle_loop game n ⟨x, y⟩ ry.2

/-- `add_obstacle`; the local `new_obstacle` starts with an arbitrary value, written
before it is read. -/
def add_obstacle (game : GameState) (w : World) : GameState × World :=
  if game.obstacles.count ≥ MAX_OBSTACLES then (game, w)
  else
    let r := add_obstacle_loop game 100 ⟨0, 0⟩ w
    if r.1 = true then
      ({ game with
          obstacles :=
            { obstacles :=
                Function.update game.obstacles.obstacles game.obstacles.count.toNat r.2.1
              count := game.obstacles.count + 1 } }, r.2.2)
    else (game, r.2.2)

/-- `get_time_diff_us`. -/
def get_time_diff_us (start stop : Timeval) : Int :=
  (stop.tv_sec - start.tv_sec) * 1000000 + (stop.tv_usec - start.tv_usec)

/-- `is_speed_boost_active`: the clock is read only when the boost is active. -/
def is_speed_boost_active (boost : SpeedBoost) (w : World) : Bool × World :=
  if boost.active = 0 then (false, w)
  else
    let now := gettimeofday w
    (decide (get_time_diff_us boost.start_time now.1 < SPEED_BOOST_DURATION), now.2)

/-- `activate_speed_boost`. -/
def activate_speed_boost (_boost : SpeedBoost) (w : World) : SpeedBoost × World :=
  let now := gettimeofday w
  ({ active := 1, start_time := now.1 }, now.2)

/-! ## The tick -/

/-- `handle_food_eaten`; a food type that is none of the four cases only counts. -/
def handle_food_eaten (game : GameState) (w : World) : GameState × World :=
  let game := { game with apples_eaten := game.apples_eaten + 1 }
  let game :=
    { game with
      special_apples_eaten :=
        Function.update game.special_apples_eaten game.food.type.toNat
          (game.special_apples_eaten game.food.type.toNat + 1) }
  let r : GameState × World :=
    if game.food.type = FOOD_REGULAR then
      ({ game with score := game.score + 10, snake := grow_snake game.snake 1 }, w)
    else if game.food.type = FOOD_GREEN then
      ({ game with score := game.score + 20, snake := grow_snake game.snake 2 }, w)
    else if game.food.type = FOOD_GOLD then
      let game := { game with score := game.score + 50, snake := grow_snake game.snake 1 }
      let b := activate_speed_boost game.speed_boost w
      ({ game with speed_boost := b.1 }, b.2)
    else if game.food.type = FOOD_BLUE then
      add_obstacle { game with score := game.score + 15, snake := grow_snake game.snake 1 } w
    else (game, w)
  ({ r.1 with food := { r.1.food with active := 0 } }, r.2)

/-- What a call of `update_game` leaves: the returned status, the game, the world. -/
structure Tick where
  ret : Int
  game : GameState
  world : World

/-- The food steps of `update_game`: eat, then replace the food if it is inactive. -/
def update_game_food (game : GameState) (w : World) : GameState × World :=
  let r : GameState × World :=
    if check_food_collision game.snake game.food = true then handle_food_eaten game w
    else (game, w)
  if r.1.food.active = 0 then
    let f := generate_food r.1.snake r.1.obstacles r.1.food r.2
    ({ r.1 with food := f.1 }, f.2)
  else r

/-- The last step of `update_game`: clear the flag of a speed boost that has run out. -/
def update_game_boost (game : GameState) (w : World) : GameState × World :=
  if game.speed_boost.active ≠ 0 then
    let a := is_speed_boost_active game.speed_boost w
    if a.1 = false then ({ game with speed_boost := { game.speed_boost with active := 0 } }, a.2)
    else (game, a.2)
  else (game, w)

/-- `update_game`. -/
def update_game (game : GameState) (w : World) : Tick :=
  let game := { game with snake := update_snake_position game.snake }
  if check_collision game.snake game.obstacles = true then
    { ret := GAME_OVER, game := { game with state := GAME_OVER }, world := w }
  else if game.snake.length ≥ WIN_LENGTH then
    { ret := GAME_WON, game := { game with state := GAME_WON }, world := w }
  else
    let r := update_game_food game w
    let r := update_game_boost r.1 r.2
    { ret := GAME_RUNNING, game := r.1, world := r.2 }

/-- `get_movement_delay` (`src/main.c`). -/
def get_movement_delay (direction speed_boost : Int) : Int :=
  let base_delay :=
    if direction = DIR_LEFT ∨ direction = DIR_RIGHT then MOVE_DELAY_HORIZONTAL
    else MOVE_DELAY_VERTICAL
  if speed_boost ≠ 0 then base_delay / 2 else base_delay

/-! ## Concrete states used to evaluate the code -/

/-- A body array holding the listed segments, head first; the other slots hold `(0, 0)`. -/
def body_of (l : List Point) : Nat → Point :=
  fun i => l.getD i ⟨0, 0⟩

/-- A world whose `rand()` always returns `v` and whose clock always reads `(sec, 0)`. -/
def const_world (v : Nat) (sec : Int) : World :=
  { rand_seq := fun _ => v, time_seq := fun _ => ⟨sec, 0⟩ }

/-- A world whose `n`-th `rand()` returns `n` and whose `n`-th clock reading is `(n, 0)`. -/
def counting_world : World :=
  { rand_seq := fun n => n, time_seq := fun n => ⟨(n : Int), 0⟩ }

/-- A running game with the given snake and food, no obstacle, no boost, no points. -/
def game_with (body : Nat → Point) (length direction : Int) (food : Food) : GameState :=
  { snake := { body := body, length := length, direction := direction }
    food := food
    obstacles := { obstacles := fun _ => ⟨0, 0⟩, count := 0 }
    speed_boost := { active := 0, start_time := ⟨0, 0⟩ }
    score := 0
    state := GAME_RUNNING
    apples_eaten := 0
    special_apples_eaten := fun _ => 0 }

/-- The four directions. -/
def all_directions : List Int := [DIR_UP, DIR_RIGHT, DIR_DOWN, DIR_LEFT]

/-- All ordered pairs `(current_dir, new_dir)` of directions. -/
def direction_pairs : List (Int × Int) :=
  all_directions.flatMap fun c => all_directions.map fun d => (c, d)

/-- A snake of three segments on row 5, head at `(5, 5)`, tail to the left. -/
def short_snake (direction : Int) : Snake :=
  { body := body_of [⟨5, 5⟩, ⟨4, 5⟩, ⟨3, 5⟩], length := 3, direction := direction }

/-- Head at `(40, 5)` heading right into the wall cell `(41, 5)`, where active food lies. -/
def wall_crash_on_food : GameState :=
  game_with (body_of [⟨40, 5⟩, ⟨39, 5⟩, ⟨38, 5⟩]) 3 DIR_RIGHT ⟨⟨41, 5⟩, 1, FOOD_REGULAR⟩

/-- Head at `(20, 5)` heading right, active Blue food on the next cell `(21, 5)`. -/
def about_to_eat : GameState :=
  game_with (body_of [⟨20, 5⟩, ⟨19, 5⟩, ⟨18, 5⟩]) 3 DIR_RIGHT ⟨⟨21, 5⟩, 1, FOOD_BLUE⟩

/-- A connected body of up to 51 segments: segment `i < 30` at `(10 + i, 5)`, then down
column 39 to `(39, 15)`, then left along row 15. -/
def long_body : Nat → Point :=
  fun i =>
    if i < 30 then ⟨10 + (i : Int), 5⟩
    else if i < 40 then ⟨39, (i : Int) - 24⟩
    else ⟨78 - (i : Int), 15⟩

/-- A running game, 49 segments, head at `(10, 5)` heading left, active Regular food on
the next cell `(9, 5)`. -/
def about_to_cross : GameState :=
  game_with long_body 49 DIR_LEFT ⟨⟨9, 5⟩, 1, FOOD_REGULAR⟩

/-- A game of 50 segments, head at `(10, 5)` heading left, active Gold food on the next
cell `(9, 5)`. -/
def winner_on_food : GameState :=
  game_with long_body 50 DIR_LEFT ⟨⟨9, 5⟩, 1, FOOD_GOLD⟩

/-- A snake whose head is at `(-1, 5)`, one cell beyond the wall ring. -/
def beyond_the_ring : Snake :=
  { body := body_of [⟨-1, 5⟩], length := 1, direction := DIR_LEFT }

/-- A game of 51 = `MAX_SNAKE_LENGTH` segments with active Regular food under the head. -/
def full_length_game : GameState :=
  game_with long_body 51 DIR_LEFT ⟨⟨10, 5⟩, 1, FOOD_REGULAR⟩

/-- A game of 50 segments with active Green food under the head. -/
def green_at_fifty : GameState :=
  game_with long_body 50 DIR_LEFT ⟨⟨10, 5⟩, 1, FOOD_GREEN⟩

/-- A game of three segments with active food of the given type under the head. -/
def head_on_food (type : Int) : GameState :=
  game_with (body_of [⟨20, 5⟩, ⟨19, 5⟩, ⟨18, 5⟩]) 3 DIR_RIGHT ⟨⟨20, 5⟩, 1, type⟩

/-! ## The sampled candidates, in the words of the specification -/

/-- The world after `k` more calls of `rand()`. -/
def after_rand (k : Nat) (w : World) : World :=
  { w with rand_seq := fun n => w.rand_seq (n + k) }

/-- The `k`-th candidate cell (counted from 0) that a sampling loop entered in world `w`
draws: `x` from the draw `2 * k`, `y` from the draw `2 * k + 1`. -/
def candidate (w : World) (k : Nat) : Point :=
  ⟨(w.rand_seq (2 * k) : Int) % WIDTH + 1, (w.rand_seq (2 * k + 1) : Int) % HEIGHT + 1⟩

/-- A cell that lies on no snake segment (indices below `length`) and on no obstacle
(indices below `count`). -/
def cell_free (snake : Snake) (obstacles : Obstacles) (p : Point) : Prop :=
  (∀ i : Nat, (i : Int) < snake.length → snake.body i ≠ p) ∧
  (∀ i : Nat, (i : Int) < obstacles.count → obstacles.obstacles i ≠ p)

/-- A cell that `add_obstacle` may take: free, and not within `|dx| < 3` and `|dy| < 3`
of the active food. -/
def obstacle_ok (game : GameState) (p : Point) : Prop :=
  cell_free game.snake game.obstacles p ∧
  ¬ (game.food.active ≠ 0 ∧ |p.x - game.food.position.x| < 3 ∧
      |p.y - game.food.position.y| < 3)

/-- No obstacle placed. -/
def no_obstacles : Obstacles :=
  { obstacles := fun _ => ⟨0, 0⟩, count := 0 }

/-- A snake of three segments on row 8 with its head at `(8, 8)`. -/
def snake_at_8_8 : Snake :=
  { body := body_of [⟨8, 8⟩, ⟨7, 8⟩, ⟨6, 8⟩], length := 3, direction := DIR_RIGHT }

/-- A game whose every field holds leftovers of an earlier episode. -/
def used_game : GameState :=
  { snake := { body := long_body, length := 51, direction := DIR_LEFT }
    food := ⟨⟨9, 5⟩, 1, FOOD_BLUE⟩
    obstacles := { obstacles := fun _ => ⟨3, 3⟩, count := 20 }
    speed_boost := { active := 1, start_time := ⟨12, 500⟩ }
    score := 735
    state := GAME_WON
    apples_eaten := 48
    special_apples_eaten := fun i => (i : Int) + 12 }

/-- A world whose clock always reads `(sec, usec)` and whose `rand()` always returns 0. -/
def clock_at (sec usec : Int) : World :=
  { rand_seq := fun _ => 0, time_seq := fun _ => ⟨sec, usec⟩ }

/-! ## The game loop of `main` (`src/main.c`) -/

/-- A running game of three segments about to eat Regular food at `(21, 5)`, whose
unused body slot 3 holds `slot3`. -/
def eat_regular (slot3 : Point) : GameState :=
  game_with (body_of [⟨20, 5⟩, ⟨19, 5⟩, ⟨18, 5⟩, slot3]) 3 DIR_RIGHT
    ⟨⟨21, 5⟩, 1, FOOD_REGULAR⟩

/-! ## Runs of the game, in the words of the specification -/

/-- What can happen to the game between initialisation and the end of an episode: a call
of `update_game` (with the random source and clock as they stand at the call), or the
caller writing `snake.direction`, or the caller writing `state`. -/
inductive Action where
  | tick (w : World)
  | turn (d : Int)
  | status (s : Int)

/-- The game after one action. -/
def apply_action (game : GameState) : Action → GameState
  | Action.tick w => (update_game game w).game
  | Action.turn d => { game with snake := { game.snake with direction := d } }
  | Action.status s => { game with state := s }

/-- The game after a sequence of actions, first to last. -/
def run_actions (game : GameState) (actions : List Action) : GameState :=
  actions.foldl apply_action game

/-- The accounting invariant: totals, score and length follow from the per-type counters
`c0 .. c3` of Regular, Green, Gold and Blue food. -/
def accounting (game : GameState) : Prop :=
  game.apples_eaten =
    game.special_apples_eaten 0 + game.special_apples_eaten 1 +
      game.special_apples_eaten 2 + game.special_apples_eaten 3 ∧
  game.score =
    10 * game.special_apples_eaten 0 + 20 * game.special_apples_eaten 1 +
      50 * game.special_apples_eaten 2 + 15 * game.special_apples_eaten 3 ∧
  game.snake.length =
    3 + game.special_apples_eaten 0 + 2 * game.special_apples_eaten 1 +
      game.special_apples_eaten 2 + game.special_apples_eaten 3 ∧
  game.snake.length ≤ MAX_SNAKE_LENGTH

/-- The invariant carried through a run: the accounting and a food type among the four. -/
def run_invariant (game : GameState) : Prop :=
  accounting game ∧
  (game.food.type = FOOD_REGULAR ∨ game.food.type = FOOD_GREEN ∨
    game.food.type = FOOD_GOLD ∨ game.food.type = FOOD_BLUE)

/-- A snake of four segments bent in a square: the head at `(5, 5)` heading down towards
`(5, 6)`, the cell of its last segment. -/
def square_snake : Snake :=
  { body := body_of [⟨5, 5⟩, ⟨4, 5⟩, ⟨4, 6⟩, ⟨5, 6⟩], length := 4, direction := DIR_DOWN }

/-- The game `about_to_eat` (Blue food on the next cell) with two obstacles already
placed, at `(3, 3)` and `(7, 9)`. -/
def eat_blue_with_obstacles : GameState :=
  { about_to_eat with obstacles := { obstacles := body_of [⟨3, 3⟩, ⟨7, 9⟩], count := 2 } }

/-! ## Array accesses in range, in the words of the specification -/

/-- Two snakes that agree on length, direction and every body slot inside the array
(`i < MAX_SNAKE_LENGTH`). -/
def same_snake (s1 s2 : Snake) : Prop :=
  (∀ i : Nat, (i : Int) < MAX_SNAKE_LENGTH → s1.body i = s2.body i) ∧
  s1.length = s2.length ∧ s1.direction = s2.direction

/-- Two obstacle sets that agree on the count and every slot inside the array
(`i < MAX_OBSTACLES`). -/
def same_obstacles (o1 o2 : Obstacles) : Prop :=
  (∀ i : Nat, (i : Int) < MAX_OBSTACLES → o1.obstacles i = o2.obstacles i) ∧
  o1.count = o2.count

/-- Two games that agree on every field and on every array slot inside the declared
ranges: body slots below `MAX_SNAKE_LENGTH`, obstacle slots below `MAX_OBSTACLES`,
per-type counters below 4.  They may differ in what lies beyond the arrays. -/
def same_in_range (g1 g2 : GameState) : Prop :=
  same_snake g1.snake g2.snake ∧
  g1.food = g2.food ∧
  same_obstacles g1.obstacles g2.obstacles ∧
  g1.speed_boost = g2.speed_boost ∧
  g1.score = g2.score ∧
  g1.state = g2.state ∧
  g1.apples_eaten = g2.apples_eaten ∧
  (∀ i : Nat, i < 4 → g1.special_apples_eaten i = g2.special_apples_eaten i)

/-! ## Lemmas: movement -/

theorem shift_body_apply (n : Nat) (body : Nat → Point) (i : Nat) :
    shift_body n body i = if 0 < i ∧ i ≤ n then body (i - 1) else body i := by
  induction n generalizing body with
  | zero =>
    have h : ¬ (0 < i ∧ i ≤ 0) := by omega
    rw [if_neg h]
    rfl
  | succ n ih =>
    simp only [shift_body]
    rw [ih]
    by_cases h1 : 0 < i ∧ i ≤ n
    · have h2 : 0 < i ∧ i ≤ n + 1 := by omega
      have h3 : i - 1 ≠ n + 1 := by omega
      rw [if_pos h1, if_pos h2, Function.update_noteq h3]
    · rw [if_neg h1]
      by_cases h4 : i = n + 1
      · subst h4
        have h2 : 0 < n + 1 ∧ n + 1 ≤ n + 1 := by omega
        rw [if_pos h2, Function.update_same]
        rfl
      · have h2 : ¬ (0 < i ∧ i ≤ n + 1) := by omega
        rw [if_neg h2, Function.update_noteq h4]

theorem update_snake_position_head (snake : Snake) :
    (update_snake_position snake).body 0 = move_head snake.direction (snake.body 0) := by
  simp [update_snake_position, shift_body_apply]

theorem update_snake_position_segment (snake : Snake) (i : Nat) (h0 : 0 < i)
    (hi : (i : Int) < snake.length) :
    (update_snake_position snake).body i = snake.body (i - 1) := by
  have hne : i ≠ 0 := by omega
  have hin : 0 < i ∧ i ≤ (snake.length - 1).toNat := by omega
  unfold update_snake_position
  dsimp only
  rw [Function.update_noteq hne, shift_body_apply, if_pos hin]

/-! ## Lemmas: collisions -/

theorem find_point_iff (arr : Nat → Point) (x y : Int) (i n : Nat) :
    find_point arr x y i n = true ↔ ∃ j, i ≤ j ∧ j < i + n ∧ arr j = ⟨x, y⟩ := by
  induction n generalizing i with
  | zero =>
    simp only [find_point, Bool.false_eq_true, false_iff]
    rintro ⟨j, h1, h2, _⟩
    omega
  | succ n ih =>
    simp only [find_point]
    by_cases h : (arr i).x = x ∧ (arr i).y = y
    · rw [if_pos h]
      simp only [true_iff]
      refine ⟨i, le_refl i, by omega, ?_⟩
      cases hp : arr i
      rw [hp] at h
      simp only [Point.mk.injEq]
      exact h
    · rw [if_neg h, ih]
      constructor
      · rintro ⟨j, h1, h2, h3⟩
        exact ⟨j, by omega, by omega, h3⟩
      · rintro ⟨j, h1, h2, h3⟩
        have hne : j ≠ i := by
          rintro rfl
          apply h
          rw [h3]
          exact ⟨rfl, rfl⟩
        exact ⟨j, by omega, by omega, h3⟩

theorem check_wall_collision_iff (snake : Snake) :
    check_wall_collision snake = true ↔
      (snake.body 0).x ≤ 0 ∨ (snake.body 0).x ≥ WIDTH + 1 ∨
      (snake.body 0).y ≤ 0 ∨ (snake.body 0).y ≥ HEIGHT + 1 := by
  simp [check_wall_collision, or_assoc]

theorem check_self_collision_iff (snake : Snake) :
    check_self_collision snake = true ↔
      ∃ i : Nat, 1 ≤ i ∧ (i : Int) < snake.length ∧ snake.body i = snake.body 0 := by
  unfold check_self_collision
  rw [find_point_iff]
  constructor
  · rintro ⟨j, h1, h2, h3⟩
    exact ⟨j, h1, by omega, h3⟩
  · rintro ⟨j, h1, h2, h3⟩
    exact ⟨j, h1, by omega, h3⟩

theorem check_obstacle_collision_iff (snake : Snake) (obstacles : Obstacles) :
    check_obstacle_collision snake obstacles = true ↔
      ∃ i : Nat, (i : Int) < obstacles.count ∧ obstacles.obstacles i = snake.body 0 := by
  unfold check_obstacle_collision
  rw [find_point_iff]
  constructor
  · rintro ⟨j, _, h2, h3⟩
    exact ⟨j, by omega, h3⟩
  · rintro ⟨j, h2, h3⟩
    exact ⟨j, Nat.zero_le j, by omega, h3⟩

/-! ## Lemmas: growth, food and the tick -/

theorem update_snake_position_length (snake : Snake) :
    (update_snake_position snake).length = snake.length := rfl

theorem update_snake_position_direction (snake : Snake) :
    (update_snake_position snake).direction = snake.direction := rfl

theorem grow_snake_loop_body (n : Nat) (snake : Snake) :
    (grow_snake_loop n snake).body = snake.body ∧
    (grow_snake_loop n snake).direction = snake.direction := by
  induction n generalizing snake with
  | zero => exact ⟨rfl, rfl⟩
  | succ n ih =>
    simp only [grow_snake_loop]
    split_ifs
    · exact ih _
    · exact ih _

theorem grow_snake_loop_length (n : Nat) (snake : Snake)
    (h : snake.length ≤ MAX_SNAKE_LENGTH) :
    (grow_snake_loop n snake).length = min (snake.length + n) MAX_SNAKE_LENGTH := by
  induction n generalizing snake with
  | zero => simp [grow_snake_loop, h]
  | succ n ih =>
    simp only [grow_snake_loop]
    split_ifs with hlt
    · rw [ih _ (by simpa using hlt)]
      simp only [Nat.cast_add, Nat.cast_one]
      congr 1
      ring
    · rw [ih _ h]
      have : snake.length = MAX_SNAKE_LENGTH := le_antisymm h (not_lt.mp hlt)
      rw [this]
      simp
      omega

theorem grow_snake_length (snake : Snake) (amount : Nat)
    (h : snake.length + amount ≤ MAX_SNAKE_LENGTH) :
    (grow_snake snake amount).length = snake.length + amount := by
  have h0 : snake.length ≤ MAX_SNAKE_LENGTH := by omega
  simp only [grow_snake, Int.toNat_ofNat]
  rw [grow_snake_loop_length _ _ h0]
  exact min_eq_left h

theorem add_obstacle_frame (game : GameState) (w : World) :
    (add_obstacle game w).1.snake = game.snake ∧
    (add_obstacle game w).1.food = game.food ∧
    (add_obstacle game w).1.speed_boost = game.speed_boost ∧
    (add_obstacle game w).1.score = game.score ∧
    (add_obstacle game w).1.state = game.state ∧
    (add_obstacle game w).1.apples_eaten = game.apples_eaten ∧
    (add_obstacle game w).1.special_apples_eaten = game.special_apples_eaten := by
  unfold add_obstacle
  dsimp only
  split_ifs <;> simp

theorem handle_food_eaten_active (game : GameState) (w : World) :
    (handle_food_eaten game w).1.food.active = 0 := rfl

theorem handle_food_eaten_state (game : GameState) (w : World) :
    (handle_food_eaten game w).1.state = game.state := by
  unfold handle_food_eaten
  simp only
  split_ifs <;> simp [(add_obstacle_frame _ _).2.2.2.2.1]

theorem handle_food_eaten_regular (game : GameState) (w : World)
    (ht : game.food.type = FOOD_REGULAR) :
    (handle_food_eaten game w).1.score = game.score + 10 ∧
    (handle_food_eaten game w).1.snake = grow_snake game.snake 1 := by
  simp [handle_food_eaten, ht]

theorem handle_food_eaten_green (game : GameState) (w : World)
    (ht : game.food.type = FOOD_GREEN) :
    (handle_food_eaten game w).1.score = game.score + 20 ∧
    (handle_food_eaten game w).1.snake = grow_snake game.snake 2 := by
  simp [handle_food_eaten, ht, FOOD_GREEN, FOOD_REGULAR]

theorem handle_food_eaten_gold (game : GameState) (w : World)
    (ht : game.food.type = FOOD_GOLD) :
    (handle_food_eaten game w).1.score = game.score + 50 ∧
    (handle_food_eaten game w).1.snake = grow_snake game.snake 1 := by
  simp [handle_food_eaten, ht, FOOD_GREEN, FOOD_REGULAR, FOOD_GOLD]

theorem handle_food_eaten_blue (game : GameState) (w : World)
    (ht : game.food.type = FOOD_BLUE) :
    (handle_food_eaten game w).1.score = game.score + 15 ∧
    (handle_food_eaten game w).1.snake = grow_snake game.snake 1 := by
  simp [handle_food_eaten, ht, FOOD_GREEN, FOOD_REGULAR, FOOD_GOLD, FOOD_BLUE,
    (add_obstacle_frame _ _).1, (add_obstacle_frame _ _).2.2.2.1]

theorem update_game_boost_frame (game : GameState) (w : World) :
    (update_game_boost game w).1.snake = game.snake ∧
    (update_game_boost game w).1.food = game.food ∧
    (update_game_boost game w).1.obstacles = game.obstacles ∧
    (update_game_boost game w).1.score = game.score ∧
    (update_game_boost game w).1.state = game.state ∧
    (update_game_boost game w).1.apples_eaten = game.apples_eaten ∧
    (update_game_boost game w).1.special_apples_eaten = game.special_apples_eaten := by
  unfold update_game_boost
  dsimp only
  split_ifs <;> simp

theorem update_game_food_eaten (game : GameState) (w : World)
    (h : check_food_collision game.snake game.food = true) :
    (update_game_food game w).1.snake = (handle_food_eaten game w).1.snake ∧
    (update_game_food game w).1.score = (handle_food_eaten game w).1.score ∧
    (update_game_food game w).1.state = game.state ∧
    (update_game_food game w).1.food.active = 1 := by
  simp [update_game_food, h, handle_food_eaten_active, handle_food_eaten_state, generate_food]

theorem update_game_running (game : GameState) (w : World)
    (hcol : check_collision (update_snake_position game.snake) game.obstacles = false)
    (hlen : game.snake.length < WIN_LENGTH) :
    update_game game w =
      { ret := GAME_RUNNING
        game := (update_game_boost
          (update_game_food { game with snake := update_snake_position game.snake } w).1
          (update_game_food { game with snake := update_snake_position game.snake } w).2).1
        world := (update_game_boost
          (update_game_food { game with snake := update_snake_position game.snake } w).1
          (update_game_food { game with snake := update_snake_position game.snake } w).2).2 } := by
  simp [update_game, hcol, update_snake_position_length, not_le.mpr hlen]

theorem update_game_over_eq (game : GameState) (w : World)
    (hcol : check_collision (update_snake_position game.snake) game.obstacles = true) :
    update_game game w =
      { ret := GAME_OVER
        game := { game with snake := update_snake_position game.snake, state := GAME_OVER }
        world := w } := by
  simp [update_game, hcol]

theorem update_game_won_eq (game : GameState) (w : World)
    (hcol : check_collision (update_snake_position game.snake) game.obstacles = false)
    (hlen : game.snake.length ≥ WIN_LENGTH) :
    update_game game w =
      { ret := GAME_WON
        game := { game with snake := update_snake_position game.snake, state := GAME_WON }
        world := w } := by
  simp [update_game, hcol, update_snake_position_length, hlen]

theorem update_game_won_after_turn (game : GameState) (d : Int) (w : World)
    (hlen : game.snake.length ≥ WIN_LENGTH)
    (hcol : check_collision (update_snake_position { game.snake with direction := d })
      game.obstacles = false) :
    (update_game { game with snake := { game.snake with direction := d } } w).ret
      = GAME_WON ∧
    (update_game { game with snake := { game.snake with direction := d } } w).game.state
      = GAME_WON := by
  rw [update_game_won_eq { game with snake := { game.snake with direction := d } } w hcol hlen]
  exact ⟨rfl, rfl⟩

/-! ## The claims -/

/-- C1: when the moved snake has a fatal collision, `update_game` returns `GAME_OVER` and
stores it, and nothing else changes but the body positions: score, `apples_eaten`, the
per-type counters, the food, the obstacles, the speed boost, the snake's length and
direction (and the random source and the clock) are as before the tick, whether or not
the moved head lies on the active food. -/
theorem update_game_collision_is_over (game : GameState) (w : World)
    (hcol : check_collision (update_snake_position game.snake) game.obstacles = true) :
    (update_game game w).ret = GAME_OVER ∧
    (update_game game w).game.state = GAME_OVER ∧
    (update_game game w).game.score = game.score ∧
    (update_game game w).game.apples_eaten = game.apples_eaten ∧
    (update_game game w).game.special_apples_eaten = game.special_apples_eaten ∧
    (update_game game w).game.food = game.food ∧
    (update_game game w).game.obstacles = game.obstacles ∧
    (update_game game w).game.speed_boost = game.speed_boost ∧
    (update_game game w).game.snake.length = game.snake.length ∧
    (update_game game w).game.snake.direction = game.snake.direction ∧
    (update_game game w).game.snake = update_snake_position game.snake ∧
    (update_game game w).world = w := by
  rw [update_game_over_eq game w hcol]
  exact ⟨rfl, rfl, rfl, rfl, rfl, rfl, rfl, rfl, rfl, rfl, rfl, rfl⟩

/-- C1 at a concrete state: the head runs into the wall cell `(41, 5)` on which active
food lies; the tick is over and the score is still 0. -/
theorem update_game_collision_is_over_witness :
    check_collision (update_snake_position wall_crash_on_food.snake)
        wall_crash_on_food.obstacles = true ∧
    check_food_collision (update_snake_position wall_crash_on_food.snake)
        wall_crash_on_food.food = true ∧
    (update_game wall_crash_on_food counting_world).ret = GAME_OVER ∧
    (update_game wall_crash_on_food counting_world).game.score = 0 :=
  have h := update_game_collision_is_over wall_crash_on_food counting_world (by decide)
  ⟨by decide, by decide, h.1, h.2.2.1⟩

/-- C2: when the moved snake has no fatal collision and its length is at least
`WIN_LENGTH`, `update_game` returns `GAME_WON` and stores it, and no food handling runs:
score, counters, food, obstacles, speed boost and the random source are unchanged,
whether or not the moved head lies on the active food. -/
theorem update_game_win (game : GameState) (w : World)
    (hcol : check_collision (update_snake_position game.snake) game.obstacles = false)
    (hlen : game.snake.length ≥ WIN_LENGTH) :
    (update_game game w).ret = GAME_WON ∧
    (update_game game w).game.state = GAME_WON ∧
    (update_game game w).game.score = game.score ∧
    (update_game game w).game.apples_eaten = game.apples_eaten ∧
    (update_game game w).game.special_apples_eaten = game.special_apples_eaten ∧
    (update_game game w).game.food = game.food ∧
    (update_game game w).game.obstacles = game.obstacles ∧
    (update_game game w).game.speed_boost = game.speed_boost ∧
    (update_game game w).game.snake = update_snake_position game.snake ∧
    (update_game game w).world = w := by
  rw [update_game_won_eq game w hcol hlen]
  exact ⟨rfl, rfl, rfl, rfl, rfl, rfl, rfl, rfl, rfl, rfl⟩

/-- C2 at a concrete state: 50 segments, the head moves onto active Gold food without a
collision; the tick is won and the food is still there. -/
theorem update_game_win_witness :
    check_collision (update_snake_position winner_on_food.snake)
        winner_on_food.obstacles = false ∧
    winner_on_food.snake.length ≥ WIN_LENGTH ∧
    check_food_collision (update_snake_position winner_on_food.snake)
        winner_on_food.food = true ∧
    (update_game winner_on_food counting_world).ret = GAME_WON ∧
    (update_game winner_on_food counting_world).game.food = winner_on_food.food :=
  have h := update_game_win winner_on_food counting_world (by decide) (by decide)
  ⟨by decide, by decide, by decide, h.1, h.2.2.2.2.2.1⟩

/-- C3 as stated fails: a running game of 49 segments whose head moves, without a
collision, onto active Regular food grows to 50 = `WIN_LENGTH` on that tick, and that
call of `update_game` returns `GAME_RUNNING`, not `GAME_WON`, and leaves the state
`GAME_RUNNING`. -/
theorem won_on_crossing_tick_counterexample :
    about_to_cross.state = GAME_RUNNING ∧
    about_to_cross.snake.length < WIN_LENGTH ∧
    check_collision (update_snake_position about_to_cross.snake)
        about_to_cross.obstacles = false ∧
    check_food_collision (update_snake_position about_to_cross.snake)
        about_to_cross.food = true ∧
    (update_game about_to_cross counting_world).game.snake.length ≥ WIN_LENGTH ∧
    (update_game about_to_cross counting_world).ret = GAME_RUNNING ∧
    (update_game about_to_cross counting_world).ret ≠ GAME_WON ∧
    (update_game about_to_cross counting_world).game.state = GAME_RUNNING ∧
    (update_game about_to_cross counting_world).game.state ≠ GAME_WON := by
  decide

/-- C3, amended: when the length is below `WIN_LENGTH`, the move causes no fatal
collision and the head eats active food whose growth brings the length to at least
`WIN_LENGTH`, that call of `update_game` returns `GAME_RUNNING` and leaves the state
field as it was (the win check ran before the food was handled); the next call,
whatever direction the caller has set and whatever the random source and clock, returns
`GAME_WON` and stores it if its move causes no fatal collision. -/
theorem update_game_crossing_tick (game : GameState) (w : World)
    (hlen : game.snake.length < WIN_LENGTH)
    (hcol : check_collision (update_snake_position game.snake) game.obstacles = false)
    (hfood : check_food_collision (update_snake_position game.snake) game.food = true)
    (hgrow : (handle_food_eaten
      { game with snake := update_snake_position game.snake } w).1.snake.length
        ≥ WIN_LENGTH) :
    (update_game game w).ret = GAME_RUNNING ∧
    (update_game game w).game.state = game.state ∧
    (update_game game w).game.snake.length ≥ WIN_LENGTH ∧
    ∀ (d : Int) (w2 : World),
      check_collision
        (update_snake_position { (update_game game w).game.snake with direction := d })
        (update_game game w).game.obstacles = false →
      (update_game { (update_game game w).game with
          snake := { (update_game game w).game.snake with direction := d } } w2).ret
        = GAME_WON ∧
      (update_game { (update_game game w).game with
          snake := { (update_game game w).game.snake with direction := d } } w2).game.state
        = GAME_WON := by
  obtain ⟨hsn, -, hst, -⟩ :=
    update_game_food_eaten { game with snake := update_snake_position game.snake } w hfood
  obtain ⟨bsn, -, -, -, bst, -⟩ := update_game_boost_frame
    (update_game_food { game with snake := update_snake_position game.snake } w).1
    (update_game_food { game with snake := update_snake_position game.snake } w).2
  have hlen2 : (update_game game w).game.snake.length ≥ WIN_LENGTH := by
    rw [update_game_running game w hcol hlen]
    simp only [bsn, hsn]
    exact hgrow
  refine ⟨?_, ?_, hlen2, fun d w2 hc => ?_⟩
  · rw [update_game_running game w hcol hlen]
  · rw [update_game_running game w hcol hlen]
    simp only [bst, hst]
  · exact update_game_won_after_turn (update_game game w).game d w2 hlen2 hc

/-- C3, amended, at a concrete state: 49 segments, Regular food eaten; the tick returns
`GAME_RUNNING` with 50 segments. -/
theorem update_game_crossing_tick_witness :
    about_to_cross.snake.length < WIN_LENGTH ∧
    (update_game about_to_cross counting_world).ret = GAME_RUNNING ∧
    (update_game about_to_cross counting_world).game.snake.length ≥ WIN_LENGTH :=
  have h := update_game_crossing_tick about_to_cross counting_world
    (by decide) (by decide) (by decide) (by decide)
  ⟨by decide, h.1, h.2.2.1⟩

/-- C5: for a snake with `1 ≤ length ≤ MAX_SNAKE_LENGTH` (every index used is in range)
and one of the four directions, `update_snake_position` puts the new head at the old
head plus the direction's unit vector (Up `y - 1`, Right `x + 1`, Down `y + 1`,
Left `x - 1`), puts every segment `i` with `0 < i < length` at the old position of
segment `i - 1`, and leaves length and direction unchanged. -/
theorem update_snake_position_spec (snake : Snake)
    (_hlo : 1 ≤ snake.length) (_hhi : snake.length ≤ MAX_SNAKE_LENGTH)
    (hdir : snake.direction = DIR_UP ∨ snake.direction = DIR_RIGHT ∨
      snake.direction = DIR_DOWN ∨ snake.direction = DIR_LEFT) :
    ((snake.direction = DIR_UP ∧
        (update_snake_position snake).body 0 = ⟨(snake.body 0).x, (snake.body 0).y - 1⟩) ∨
      (snake.direction = DIR_RIGHT ∧
        (update_snake_position snake).body 0 = ⟨(snake.body 0).x + 1, (snake.body 0).y⟩) ∨
      (snake.direction = DIR_DOWN ∧
        (update_snake_position snake).body 0 = ⟨(snake.body 0).x, (snake.body 0).y + 1⟩) ∨
      (snake.direction = DIR_LEFT ∧
        (update_snake_position snake).body 0 = ⟨(snake.body 0).x - 1, (snake.body 0).y⟩)) ∧
    (∀ i : Nat, 0 < i → (i : Int) < snake.length →
      (update_snake_position snake).body i = snake.body (i - 1)) ∧
    (update_snake_position snake).length = snake.length ∧
    (update_snake_position snake).direction = snake.direction := by
  refine ⟨?_, fun i h0 hi => update_snake_position_segment snake i h0 hi, rfl, rfl⟩
  rw [update_snake_position_head]
  rcases hdir with h | h | h | h
  · exact Or.inl ⟨h, by simp [move_head, h]⟩
  · exact Or.inr (Or.inl ⟨h, by simp [move_head, h, DIR_RIGHT, DIR_UP]⟩)
  · exact Or.inr (Or.inr (Or.inl ⟨h, by simp [move_head, h, DIR_RIGHT, DIR_UP, DIR_DOWN]⟩))
  · exact Or.inr (Or.inr (Or.inr
      ⟨h, by simp [move_head, h, DIR_RIGHT, DIR_UP, DIR_DOWN, DIR_LEFT]⟩))

/-- C5 at a concrete snake: three segments on row 5 heading up; segments 1 and 2 take
the old places of segments 0 and 1. -/
theorem update_snake_position_spec_witness :
    (update_snake_position (short_snake DIR_UP)).body 1 = ⟨5, 5⟩ ∧
    (update_snake_position (short_snake DIR_UP)).body 2 = ⟨4, 5⟩ ∧
    (update_snake_position (short_snake DIR_UP)).length = 3 :=
  have h := update_snake_position_spec (short_snake DIR_UP)
    (by decide) (by decide) (by decide)
  ⟨h.2.1 1 (by decide) (by decide), h.2.1 2 (by decide) (by decide), h.2.2.1⟩

/-- C6: `check_collision` is true exactly when the head is on or beyond the wall ring,
or equals a body segment with index in `1 .. length - 1`, or equals one of the first
`count` obstacles; and `check_self_collision` is false for every snake of length 1. -/
theorem check_collision_iff (snake : Snake) (obstacles : Obstacles) :
    (check_collision snake obstacles = true ↔
      ((snake.body 0).x ≤ 0 ∨ (snake.body 0).x ≥ WIDTH + 1 ∨
        (snake.body 0).y ≤ 0 ∨ (snake.body 0).y ≥ HEIGHT + 1) ∨
      (∃ i : Nat, 1 ≤ i ∧ (i : Int) < snake.length ∧ snake.body 0 = snake.body i) ∨
      (∃ i : Nat, (i : Int) < obstacles.count ∧ snake.body 0 = obstacles.obstacles i)) ∧
    (snake.length = 1 → check_self_collision snake = false) := by
  constructor
  · unfold check_collision
    rw [Bool.or_eq_true, Bool.or_eq_true, check_wall_collision_iff,
      check_self_collision_iff, check_obstacle_collision_iff, or_assoc]
    simp only [eq_comm]
  · intro h1
    rw [← Bool.not_eq_true, check_self_collision_iff]
    rintro ⟨i, hi, hlt, -⟩
    omega

/-- C6 at concrete snakes: a snake of length 1 does not collide with itself, and a head
that has turned back onto segment 3 does. -/
theorem check_collision_iff_witness :
    check_self_collision beyond_the_ring = false ∧
    check_collision
      { body := body_of [⟨5, 5⟩, ⟨5, 6⟩, ⟨4, 6⟩, ⟨4, 5⟩, ⟨5, 5⟩], length := 5,
        direction := DIR_RIGHT }
      { obstacles := fun _ => ⟨0, 0⟩, count := 0 } = true :=
  ⟨(check_collision_iff beyond_the_ring { obstacles := fun _ => ⟨0, 0⟩, count := 0 }).2 rfl,
    (check_collision_iff _ _).1.2 (Or.inr (Or.inl ⟨4, by decide, by decide, by decide⟩))⟩

/-- C7: `check_wall_collision` is true exactly when `x ≤ 0` or `x ≥ WIDTH + 1` or
`y ≤ 0` or `y ≥ HEIGHT + 1` for the head `(x, y)`; it is false exactly for heads in
the playable area `1 .. WIDTH` by `1 .. HEIGHT`. -/
theorem check_wall_collision_spec (snake : Snake) :
    (check_wall_collision snake = true ↔
      (snake.body 0).x ≤ 0 ∨ (snake.body 0).x ≥ WIDTH + 1 ∨
      (snake.body 0).y ≤ 0 ∨ (snake.body 0).y ≥ HEIGHT + 1) ∧
    (check_wall_collision snake = false ↔
      1 ≤ (snake.body 0).x ∧ (snake.body 0).x ≤ WIDTH ∧
      1 ≤ (snake.body 0).y ∧ (snake.body 0).y ≤ HEIGHT) := by
  refine ⟨check_wall_collision_iff snake, ?_⟩
  rw [← Bool.not_eq_true, check_wall_collision_iff]
  constructor
  · intro h
    omega
  · intro h
    omega

/-- C8 as stated fails: the head `(-1, 5)` has `x` neither `0` nor `WIDTH + 1` and `y`
neither `0` nor `HEIGHT + 1`, and `check_wall_collision` is true. -/
theorem wall_ring_only_counterexample :
    check_wall_collision beyond_the_ring = true ∧
    ¬ ((beyond_the_ring.body 0).x = 0 ∨ (beyond_the_ring.body 0).x = WIDTH + 1 ∨
      (beyond_the_ring.body 0).y = 0 ∨ (beyond_the_ring.body 0).y = HEIGHT + 1) := by
  decide

/-- C8, amended: for a head `(x, y)` with `0 ≤ x ≤ WIDTH + 1` and `0 ≤ y ≤ HEIGHT + 1`,
`check_wall_collision` is true exactly when `x` is `0` or `WIDTH + 1`, or `y` is `0` or
`HEIGHT + 1`; for a head outside that range it is true. -/
theorem check_wall_collision_ring (snake : Snake) :
    (0 ≤ (snake.body 0).x ∧ (snake.body 0).x ≤ WIDTH + 1 ∧
      0 ≤ (snake.body 0).y ∧ (snake.body 0).y ≤ HEIGHT + 1 →
      (check_wall_collision snake = true ↔
        (snake.body 0).x = 0 ∨ (snake.body 0).x = WIDTH + 1 ∨
        (snake.body 0).y = 0 ∨ (snake.body 0).y = HEIGHT + 1)) ∧
    (¬ (0 ≤ (snake.body 0).x ∧ (snake.body 0).x ≤ WIDTH + 1 ∧
      0 ≤ (snake.body 0).y ∧ (snake.body 0).y ≤ HEIGHT + 1) →
      check_wall_collision snake = true) := by
  rw [check_wall_collision_iff]
  constructor
  · intro h
    constructor
    · intro h
      omega
    · intro h
      omega
  · intro h
    omega

/-- C8, amended, at concrete heads: `(0, 5)` is on the ring and collides, `(5, 5)` is
inside and does not, `(-1, 5)` is beyond the ring and collides. -/
theorem check_wall_collision_ring_witness :
    check_wall_collision { body := body_of [⟨0, 5⟩], length := 1, direction := DIR_LEFT }
      = true ∧
    ¬ check_wall_collision (short_snake DIR_LEFT) = true ∧
    check_wall_collision beyond_the_ring = true :=
  ⟨((check_wall_collision_ring _).1 (by decide)).2 (Or.inl (by decide)),
    fun h => absurd (((check_wall_collision_ring (short_snake DIR_LEFT)).1 (by decide)).1 h)
      (by decide),
    (check_wall_collision_ring beyond_the_ring).2 (by decide)⟩


/-- C9: for directions `c` and `d` among the four, `is_valid_direction_change c d` is
false exactly when `d` is the opposite of `c` (Up/Down, Left/Right); of the 16 pairs the
4 opposite ones are rejected and the other 12 are accepted, and repeating the current
direction is accepted. -/
theorem is_valid_direction_change_spec :
    (∀ c ∈ all_directions, ∀ d ∈ all_directions,
      (is_valid_direction_change c d = false ↔
        (c = DIR_UP ∧ d = DIR_DOWN) ∨ (c = DIR_DOWN ∧ d = DIR_UP) ∨
        (c = DIR_LEFT ∧ d = DIR_RIGHT) ∨ (c = DIR_RIGHT ∧ d = DIR_LEFT))) ∧
    direction_pairs.filter (fun p => !is_valid_direction_change p.1 p.2) =
      [(DIR_UP, DIR_DOWN), (DIR_RIGHT, DIR_LEFT), (DIR_DOWN, DIR_UP), (DIR_LEFT, DIR_RIGHT)] ∧
    (direction_pairs.filter (fun p => !is_valid_direction_change p.1 p.2)).length = 4 ∧
    (direction_pairs.filter (fun p => is_valid_direction_change p.1 p.2)).length = 12 ∧
    (∀ c ∈ all_directions, is_valid_direction_change c c = true) := by
  refine ⟨fun c _ d _ => ?_, by decide, by decide, by decide, by decide⟩
  unfold is_valid_direction_change
  split_ifs with h
  · simp only [true_iff]
    exact h
  · simp only [Bool.true_eq_false, false_iff]
    exact h

/-- C10: for a snake of length at least 2 (and at most `MAX_SNAKE_LENGTH`) heading in
one of the four directions `c`, whose segment 1 is the cell directly behind the head,
and for every direction `d` that `is_valid_direction_change c d` accepts, setting the
direction to `d` and calling `update_snake_position` puts the head on a cell other than
the one segment 1 occupied before the move. -/
theorem no_reverse_into_neck (snake : Snake) (d : Int)
    (_hlo : 2 ≤ snake.length) (_hhi : snake.length ≤ MAX_SNAKE_LENGTH)
    (hneck :
      (snake.direction = DIR_UP ∧ snake.body 1 = ⟨(snake.body 0).x, (snake.body 0).y + 1⟩) ∨
      (snake.direction = DIR_RIGHT ∧
        snake.body 1 = ⟨(snake.body 0).x - 1, (snake.body 0).y⟩) ∨
      (snake.direction = DIR_DOWN ∧
        snake.body 1 = ⟨(snake.body 0).x, (snake.body 0).y - 1⟩) ∨
      (snake.direction = DIR_LEFT ∧
        snake.body 1 = ⟨(snake.body 0).x + 1, (snake.body 0).y⟩))
    (hd : d = DIR_UP ∨ d = DIR_RIGHT ∨ d = DIR_DOWN ∨ d = DIR_LEFT)
    (hvalid : is_valid_direction_change snake.direction d = true) :
    (update_snake_position { snake with direction := d }).body 0 ≠ snake.body 1 := by
  rw [update_snake_position_head]
  show move_head d (snake.body 0) ≠ snake.body 1
  cases hp : snake.body 0 with
  | mk hx hy =>
  rw [hp] at hneck
  rcases hneck with ⟨hc, hb⟩ | ⟨hc, hb⟩ | ⟨hc, hb⟩ | ⟨hc, hb⟩ <;>
    rcases hd with rfl | rfl | rfl | rfl <;>
    rw [hc] at hvalid <;> rw [hb] <;>
    first
    | exact absurd hvalid (by decide)
    | (simp only [move_head, DIR_UP, DIR_RIGHT, DIR_DOWN, DIR_LEFT, Point.mk.injEq, ne_eq]
       norm_num
       try omega)

/-- C10 at a concrete snake: three segments on row 5 heading right, neck at `(4, 5)`;
turning up is accepted and the head goes to `(5, 4)`. -/
theorem no_reverse_into_neck_witness :
    is_valid_direction_change (short_snake DIR_RIGHT).direction DIR_UP = true ∧
    (update_snake_position { short_snake DIR_RIGHT with direction := DIR_UP }).body 0
      ≠ (short_snake DIR_RIGHT).body 1 :=
  ⟨by decide,
    no_reverse_into_neck (short_snake DIR_RIGHT) DIR_UP (by decide) (by decide)
      (by decide) (by decide) (by decide)⟩

/-! ## Lemmas: what `handle_food_eaten` counts -/

theorem handle_food_eaten_apples (game : GameState) (w : World) :
    (handle_food_eaten game w).1.apples_eaten = game.apples_eaten + 1 := by
  unfold handle_food_eaten
  dsimp only
  split_ifs <;> simp [(add_obstacle_frame _ _).2.2.2.2.2.1]

theorem handle_food_eaten_special (game : GameState) (w : World) :
    (handle_food_eaten game w).1.special_apples_eaten =
      Function.update game.special_apples_eaten game.food.type.toNat
        (game.special_apples_eaten game.food.type.toNat + 1) := by
  unfold handle_food_eaten
  dsimp only
  split_ifs <;> simp [(add_obstacle_frame _ _).2.2.2.2.2.2]

theorem grow_snake_eq_min (snake : Snake) (amount : Int)
    (h : snake.length ≤ MAX_SNAKE_LENGTH) :
    (grow_snake snake amount).length =
      min (snake.length + max amount 0) MAX_SNAKE_LENGTH := by
  unfold grow_snake
  rw [grow_snake_loop_length _ _ h, Int.toNat_eq_max]

/-- C11: for a food type among the four, `handle_food_eaten` adds 10 (Regular),
20 (Green), 50 (Gold) or 15 (Blue) to the score, adds 1 to `apples_eaten`, adds 1 to the
per-type counter of the consumed type and leaves the other three per-type counters as
they were, and sets `food.active` to 0; for every random source and clock. -/
theorem handle_food_eaten_spec (game : GameState) (w : World)
    (htype : game.food.type = FOOD_REGULAR ∨ game.food.type = FOOD_GREEN ∨
      game.food.type = FOOD_GOLD ∨ game.food.type = FOOD_BLUE) :
    (handle_food_eaten game w).1.apples_eaten = game.apples_eaten + 1 ∧
    (handle_food_eaten game w).1.food.active = 0 ∧
    ((game.food.type = FOOD_REGULAR ∧
        (handle_food_eaten game w).1.score = game.score + 10 ∧
        (handle_food_eaten game w).1.special_apples_eaten 0
          = game.special_apples_eaten 0 + 1 ∧
        (handle_food_eaten game w).1.special_apples_eaten 1 = game.special_apples_eaten 1 ∧
        (handle_food_eaten game w).1.special_apples_eaten 2 = game.special_apples_eaten 2 ∧
        (handle_food_eaten game w).1.special_apples_eaten 3 = game.special_apples_eaten 3) ∨
      (game.food.type = FOOD_GREEN ∧
        (handle_food_eaten game w).1.score = game.score + 20 ∧
        (handle_food_eaten game w).1.special_apples_eaten 0 = game.special_apples_eaten 0 ∧
        (handle_food_eaten game w).1.special_apples_eaten 1
          = game.special_apples_eaten 1 + 1 ∧
        (handle_food_eaten game w).1.special_apples_eaten 2 = game.special_apples_eaten 2 ∧
        (handle_food_eaten game w).1.special_apples_eaten 3 = game.special_apples_eaten 3) ∨
      (game.food.type = FOOD_GOLD ∧
        (handle_food_eaten game w).1.score = game.score + 50 ∧
        (handle_food_eaten game w).1.special_apples_eaten 0 = game.special_apples_eaten 0 ∧
        (handle_food_eaten game w).1.special_apples_eaten 1 = game.special_apples_eaten 1 ∧
        (handle_food_eaten game w).1.special_apples_eaten 2
          = game.special_apples_eaten 2 + 1 ∧
        (handle_food_eaten game w).1.special_apples_eaten 3 = game.special_apples_eaten 3) ∨
      (game.food.type = FOOD_BLUE ∧
        (handle_food_eaten game w).1.score = game.score + 15 ∧
        (handle_food_eaten game w).1.special_apples_eaten 0 = game.special_apples_eaten 0 ∧
        (handle_food_eaten game w).1.special_apples_eaten 1 = game.special_apples_eaten 1 ∧
        (handle_food_eaten game w).1.special_apples_eaten 2 = game.special_apples_eaten 2 ∧
        (handle_food_eaten game w).1.special_apples_eaten 3
          = game.special_apples_eaten 3 + 1)) := by
  refine ⟨handle_food_eaten_apples game w, rfl, ?_⟩
  rw [handle_food_eaten_special]
  rcases htype with ht | ht | ht | ht
  · refine Or.inl ⟨ht, (handle_food_eaten_regular game w ht).1, ?_⟩
    rw [ht]
    simp [FOOD_REGULAR, Function.update]
  · refine Or.inr (Or.inl ⟨ht, (handle_food_eaten_green game w ht).1, ?_⟩)
    rw [ht]
    simp [FOOD_GREEN, Function.update]
  · refine Or.inr (Or.inr (Or.inl ⟨ht, (handle_food_eaten_gold game w ht).1, ?_⟩))
    rw [ht]
    simp [FOOD_GOLD, Function.update]
  · refine Or.inr (Or.inr (Or.inr ⟨ht, (handle_food_eaten_blue game w ht).1, ?_⟩))
    rw [ht]
    simp [FOOD_BLUE, Function.update]

/-- C11 at a concrete state: Gold food eaten by a snake of three; one apple more. -/
theorem handle_food_eaten_spec_witness :
    (handle_food_eaten (head_on_food FOOD_GOLD) counting_world).1.apples_eaten = 1 ∧
    (handle_food_eaten (head_on_food FOOD_GOLD) counting_world).1.food.active = 0 :=
  have h := handle_food_eaten_spec (head_on_food FOOD_GOLD) counting_world (by decide)
  ⟨h.1, h.2.1⟩

/-- C12 as stated fails: at 51 = `MAX_SNAKE_LENGTH` segments Regular food leaves the
length at 51, and at 50 segments Green food brings it to 51, one more and not two. -/
theorem handle_food_eaten_growth_counterexample :
    (handle_food_eaten full_length_game counting_world).1.snake.length = 51 ∧
    (handle_food_eaten full_length_game counting_world).1.snake.length
      ≠ full_length_game.snake.length + 1 ∧
    (handle_food_eaten green_at_fifty counting_world).1.snake.length = 51 ∧
    (handle_food_eaten green_at_fifty counting_world).1.snake.length
      ≠ green_at_fifty.snake.length + 2 := by
  decide

/-- C12, amended: for a snake with `length ≤ MAX_SNAKE_LENGTH`, `handle_food_eaten` sets
the length to `min (length + 1) MAX_SNAKE_LENGTH` for Regular, Gold and Blue food and to
`min (length + 2) MAX_SNAKE_LENGTH` for Green food: exactly 1 or 2 more whenever that
stays within `MAX_SNAKE_LENGTH`. -/
theorem handle_food_eaten_growth (game : GameState) (w : World)
    (hmax : game.snake.length ≤ MAX_SNAKE_LENGTH) :
    (game.food.type = FOOD_REGULAR ∨ game.food.type = FOOD_GOLD ∨
        game.food.type = FOOD_BLUE →
      (handle_food_eaten game w).1.snake.length
        = min (game.snake.length + 1) MAX_SNAKE_LENGTH) ∧
    (game.food.type = FOOD_GREEN →
      (handle_food_eaten game w).1.snake.length
        = min (game.snake.length + 2) MAX_SNAKE_LENGTH) ∧
    (game.food.type = FOOD_REGULAR ∨ game.food.type = FOOD_GOLD ∨
        game.food.type = FOOD_BLUE →
      game.snake.length + 1 ≤ MAX_SNAKE_LENGTH →
      (handle_food_eaten game w).1.snake.length = game.snake.length + 1) ∧
    (game.food.type = FOOD_GREEN → game.snake.length + 2 ≤ MAX_SNAKE_LENGTH →
      (handle_food_eaten game w).1.snake.length = game.snake.length + 2) := by
  have g1 := grow_snake_eq_min game.snake 1 hmax
  have g2 := grow_snake_eq_min game.snake 2 hmax
  simp only [show max (1 : Int) 0 = 1 by decide, show max (2 : Int) 0 = 2 by decide] at g1 g2
  have k1 : game.food.type = FOOD_REGULAR ∨ game.food.type = FOOD_GOLD ∨
      game.food.type = FOOD_BLUE →
      (handle_food_eaten game w).1.snake.length
        = min (game.snake.length + 1) MAX_SNAKE_LENGTH := by
    rintro (ht | ht | ht)
    · rw [(handle_food_eaten_regular game w ht).2, g1]
    · rw [(handle_food_eaten_gold game w ht).2, g1]
    · rw [(handle_food_eaten_blue game w ht).2, g1]
  have k2 : game.food.type = FOOD_GREEN →
      (handle_food_eaten game w).1.snake.length
        = min (game.snake.length + 2) MAX_SNAKE_LENGTH := by
    intro ht
    rw [(handle_food_eaten_green game w ht).2, g2]
  refine ⟨k1, k2, fun ht hle => ?_, fun ht hle => ?_⟩
  · rw [k1 ht, min_eq_left hle]
  · rw [k2 ht, min_eq_left hle]

/-- C12, amended, at concrete states: Green food at 3 segments gives 5, Regular food at
51 segments gives 51. -/
theorem handle_food_eaten_growth_witness :
    (handle_food_eaten (head_on_food FOOD_GREEN) counting_world).1.snake.length = 3 + 2 ∧
    (handle_food_eaten full_length_game counting_world).1.snake.length
      = min (51 + 1) MAX_SNAKE_LENGTH :=
  ⟨(handle_food_eaten_growth (head_on_food FOOD_GREEN) counting_world (by decide)).2.2.2
      rfl (by decide),
    (handle_food_eaten_growth full_length_game counting_world (by decide)).1 (Or.inl rfl)⟩

/-- C13: for a snake with `length ≤ MAX_SNAKE_LENGTH` and every integer `amount`,
`grow_snake` sets the length to `min (length + max amount 0) MAX_SNAKE_LENGTH`, which
never exceeds `MAX_SNAKE_LENGTH`, and leaves the body positions and the direction
unchanged. -/
theorem grow_snake_spec (snake : Snake) (amount : Int)
    (hmax : snake.length ≤ MAX_SNAKE_LENGTH) :
    (grow_snake snake amount).length
      = min (snake.length + max amount 0) MAX_SNAKE_LENGTH ∧
    (grow_snake snake amount).length ≤ MAX_SNAKE_LENGTH ∧
    (grow_snake snake amount).body = snake.body ∧
    (grow_snake snake amount).direction = snake.direction := by
  refine ⟨grow_snake_eq_min snake amount hmax, ?_, (grow_snake_loop_body _ _).1,
    (grow_snake_loop_body _ _).2⟩
  rw [grow_snake_eq_min snake amount hmax]
  exact min_le_right _ _

/-- C13 at concrete snakes: three segments grown by 100 give 51, grown by -4 give 3. -/
theorem grow_snake_spec_witness :
    (grow_snake (short_snake DIR_UP) 100).length = 51 ∧
    (grow_snake (short_snake DIR_UP) (-4)).length = 3 :=
  ⟨(grow_snake_spec (short_snake DIR_UP) 100 (by decide)).1.trans (by decide),
    (grow_snake_spec (short_snake DIR_UP) (-4) (by decide)).1.trans (by decide)⟩

/-- C14: `check_food_collision` is true exactly when `food.active` is non-zero and the
head position equals the food position. -/
theorem check_food_collision_iff (snake : Snake) (food : Food) :
    check_food_collision snake food = true ↔
      food.active ≠ 0 ∧ snake.body 0 = food.position := by
  unfold check_food_collision
  cases hb : snake.body 0 with
  | mk hx hy =>
  cases hf : food.position with
  | mk fx fy =>
  simp only [Point.mk.injEq]
  split_ifs with h
  · simp only [true_iff]
    exact h
  · simp only [Bool.false_eq_true, false_iff]
    exact h

/-! ## Lemmas: the sampling loops -/

theorem is_position_on_snake_iff (snake : Snake) (x y : Int) :
    is_position_on_snake snake x y = true ↔
      ∃ i : Nat, (i : Int) < snake.length ∧ snake.body i = ⟨x, y⟩ := by
  unfold is_position_on_snake
  rw [find_point_iff]
  constructor
  · rintro ⟨j, _, h2, h3⟩
    exact ⟨j, by omega, h3⟩
  · rintro ⟨j, h2, h3⟩
    exact ⟨j, Nat.zero_le j, by omega, h3⟩

theorem is_position_on_obstacle_iff (obstacles : Obstacles) (x y : Int) :
    is_position_on_obstacle obstacles x y = true ↔
      ∃ i : Nat, (i : Int) < obstacles.count ∧ obstacles.obstacles i = ⟨x, y⟩ := by
  unfold is_position_on_obstacle
  rw [find_point_iff]
  constructor
  · rintro ⟨j, _, h2, h3⟩
    exact ⟨j, by omega, h3⟩
  · rintro ⟨j, h2, h3⟩
    exact ⟨j, Nat.zero_le j, by omega, h3⟩

theorem cell_free_iff (snake : Snake) (obstacles : Obstacles) (p : Point) :
    cell_free snake obstacles p ↔
      (!is_position_on_snake snake p.x p.y && !is_position_on_obstacle obstacles p.x p.y)
        = true := by
  rw [Bool.and_eq_true, Bool.not_eq_true', Bool.not_eq_true', ← Bool.not_eq_true,
    ← Bool.not_eq_true, is_position_on_snake_iff, is_position_on_obstacle_iff]
  unfold cell_free
  constructor
  · rintro ⟨h1, h2⟩
    exact ⟨fun ⟨i, hi, he⟩ => h1 i hi he, fun ⟨i, hi, he⟩ => h2 i hi he⟩
  · rintro ⟨h1, h2⟩
    exact ⟨fun i hi he => h1 ⟨i, hi, he⟩, fun i hi he => h2 ⟨i, hi, he⟩⟩

theorem candidate_in_range (w : World) (k : Nat) :
    1 ≤ (candidate w k).x ∧ (candidate w k).x ≤ WIDTH ∧
    1 ≤ (candidate w k).y ∧ (candidate w k).y ≤ HEIGHT := by
  simp only [candidate, WIDTH, HEIGHT]
  omega

theorem candidate_after_two (w : World) (k : Nat) :
    candidate (after_rand 2 w) k = candidate w (k + 1) := by
  simp only [candidate, after_rand]
  rw [show 2 * k + 2 = 2 * (k + 1) by ring, show 2 * k + 1 + 2 = 2 * (k + 1) + 1 by ring]

theorem generate_food_loop_succ (snake : Snake) (obstacles : Obstacles) (n : Nat)
    (position : Point) (w : World) :
    generate_food_loop snake obstacles (n + 1) position w =
      if (!is_position_on_snake snake (candidate w 0).x (candidate w 0).y &&
          !is_position_on_obstacle obstacles (candidate w 0).x (candidate w 0).y) = true
      then (candidate w 0, after_rand 2 w)
      else generate_food_loop snake obstacles n (candidate w 0) (after_rand 2 w) := rfl

theorem generate_food_loop_first (snake : Snake) (obstacles : Obstacles) (n : Nat)
    (position : Point) (w : World) (k : Nat) (hk : k < n)
    (hfree : cell_free snake obstacles (candidate w k))
    (hmin : ∀ j, j < k → ¬ cell_free snake obstacles (candidate w j)) :
    (generate_food_loop snake obstacles n position w).1 = candidate w k := by
  induction n generalizing position w k with
  | zero => omega
  | succ n ih =>
    rw [generate_food_loop_succ]
    cases k with
    | zero =>
      rw [if_pos ((cell_free_iff _ _ _).1 hfree)]
    | succ k =>
      have h0 : ¬ cell_free snake obstacles (candidate w 0) := hmin 0 (Nat.succ_pos k)
      rw [if_neg (fun h => h0 ((cell_free_iff _ _ _).2 h))]
      rw [ih (candidate w 0) (after_rand 2 w) k (by omega)
        (by rw [candidate_after_two]; exact hfree)
        (fun j hj => by rw [candidate_after_two]; exact hmin (j + 1) (by omega))]
      exact candidate_after_two w k

theorem generate_food_loop_none (snake : Snake) (obstacles : Obstacles) (n : Nat)
    (position : Point) (w : World)
    (hnone : ∀ k, k < n → ¬ cell_free snake obstacles (candidate w k)) :
    (generate_food_loop snake obstacles n position w).1 =
      if n = 0 then position else candidate w (n - 1) := by
  induction n generalizing position w with
  | zero => rfl
  | succ n ih =>
    rw [generate_food_loop_succ]
    have h0 : ¬ cell_free snake obstacles (candidate w 0) := hnone 0 (Nat.succ_pos n)
    rw [if_neg (fun h => h0 ((cell_free_iff _ _ _).2 h))]
    rw [ih (candidate w 0) (after_rand 2 w)
      (fun j hj => by rw [candidate_after_two]; exact hnone (j + 1) (by omega))]
    rw [if_neg (Nat.succ_ne_zero n)]
    cases n with
    | zero => rfl
    | succ m =>
      rw [if_neg (Nat.succ_ne_zero m)]
      exact candidate_after_two w m

theorem generate_food_loop_is_candidate (snake : Snake) (obstacles : Obstacles) (n : Nat)
    (position : Point) (w : World) (hn : 0 < n) :
    ∃ k, k < n ∧ (generate_food_loop snake obstacles n position w).1 = candidate w k := by
  induction n generalizing position w with
  | zero => omega
  | succ n ih =>
    rw [generate_food_loop_succ]
    split_ifs with h
    · exact ⟨0, Nat.succ_pos n, rfl⟩
    · cases n with
      | zero => exact ⟨0, Nat.succ_pos 0, rfl⟩
      | succ m =>
        obtain ⟨k, hk, he⟩ := ih (candidate w 0) (after_rand 2 w) (Nat.succ_pos m)
        exact ⟨k + 1, by omega, by rw [he, candidate_after_two]⟩

theorem generate_food_position (snake : Snake) (obstacles : Obstacles) (food : Food)
    (w : World) :
    (generate_food snake obstacles food w).1.position =
      (generate_food_loop snake obstacles 1000 food.position (rand w).2).1 := rfl

/-- C15: with the random source an explicit sequence of non-negative draws,
`generate_food` always sets `active` to 1 and a position inside `1 .. WIDTH` by
`1 .. HEIGHT`; the position is the first of the 1000 candidates, drawn after the type
draw, that lies on no snake segment and on no obstacle, and the 1000th candidate if none
of them is free. -/
theorem generate_food_spec (snake : Snake) (obstacles : Obstacles) (food : Food)
    (w : World) :
    (generate_food snake obstacles food w).1.active = 1 ∧
    (1 ≤ (generate_food snake obstacles food w).1.position.x ∧
      (generate_food snake obstacles food w).1.position.x ≤ WIDTH ∧
      1 ≤ (generate_food snake obstacles food w).1.position.y ∧
      (generate_food snake obstacles food w).1.position.y ≤ HEIGHT) ∧
    (∀ k, k < 1000 → cell_free snake obstacles (candidate (rand w).2 k) →
      (∀ j, j < k → ¬ cell_free snake obstacles (candidate (rand w).2 j)) →
      (generate_food snake obstacles food w).1.position = candidate (rand w).2 k) ∧
    ((∀ k, k < 1000 → ¬ cell_free snake obstacles (candidate (rand w).2 k)) →
      (generate_food snake obstacles food w).1.position = candidate (rand w).2 999) := by
  refine ⟨rfl, ?_, fun k hk hfree hmin => ?_, fun hnone => ?_⟩
  · obtain ⟨k, -, he⟩ := generate_food_loop_is_candidate snake obstacles 1000
      food.position (rand w).2 (by decide)
    rw [generate_food_position, he]
    exact candidate_in_range _ k
  · rw [generate_food_position]
    exact generate_food_loop_first snake obstacles 1000 food.position _ k hk hfree hmin
  · rw [generate_food_position, generate_food_loop_none snake obstacles 1000 _ _ hnone]
    rfl

/-- C15 at a concrete input: three segments on row 5, no obstacle, the draws 0, 1, 2,
...; the first candidate `(2, 3)` is free and the food goes there. -/
theorem generate_food_spec_witness :
    (generate_food (short_snake DIR_UP) no_obstacles ⟨⟨0, 0⟩, 0, 0⟩ counting_world).1.position
      = ⟨2, 3⟩ :=
  ((generate_food_spec (short_snake DIR_UP) no_obstacles ⟨⟨0, 0⟩, 0, 0⟩ counting_world).2.2.1
    0 (by decide) ((cell_free_iff _ _ _).2 (by decide)) (fun j hj => absurd hj (by omega))).trans
    (by decide)

/-- C16 fails on the code: with a random source whose every draw is 7, each of the 1000
candidates is `(8, 8)`, the head of the snake; `generate_food` ends with the food on the
snake's head. -/
theorem generate_food_on_snake :
    (generate_food snake_at_8_8 no_obstacles ⟨⟨0, 0⟩, 0, 0⟩ (const_world 7 0)).1.position
      = snake_at_8_8.body 0 ∧
    is_position_on_snake snake_at_8_8
      (generate_food snake_at_8_8 no_obstacles ⟨⟨0, 0⟩, 0, 0⟩ (const_world 7 0)).1.position.x
      (generate_food snake_at_8_8 no_obstacles ⟨⟨0, 0⟩, 0, 0⟩ (const_world 7 0)).1.position.y
      = true := by
  have hpos : (generate_food snake_at_8_8 no_obstacles ⟨⟨0, 0⟩, 0, 0⟩
      (const_world 7 0)).1.position = ⟨8, 8⟩ := by
    rw [generate_food_position, generate_food_loop_none]
    · rfl
    · intro k _ hfree
      exact hfree.1 0 (by decide) rfl
  rw [hpos]
  exact ⟨by decide, by decide⟩

theorem obstacle_ok_iff (game : GameState) (p : Point) :
    obstacle_ok game p ↔
      (!is_position_on_snake game.snake p.x p.y &&
        !is_position_on_obstacle game.obstacles p.x p.y &&
        !(decide (game.food.active ≠ 0) &&
          decide (Int.natAbs (p.x - game.food.position.x) < 3) &&
          decide (Int.natAbs (p.y - game.food.position.y) < 3))) = true := by
  unfold obstacle_ok
  rw [Bool.and_eq_true, ← cell_free_iff]
  simp only [Bool.not_eq_true', Bool.and_eq_false_iff, decide_eq_false_iff_not,
    abs_lt, not_and_or]
  constructor
  · rintro ⟨hf, h⟩
    refine ⟨hf, ?_⟩
    omega
  · rintro ⟨hf, h⟩
    refine ⟨hf, ?_⟩
    omega

theorem add_obstacle_loop_succ (game : GameState) (n : Nat) (p : Point) (w : World) :
    add_obstacle_loop game (n + 1) p w =
      if (!is_position_on_snake game.snake (candidate w 0).x (candidate w 0).y &&
          !is_position_on_obstacle game.obstacles (candidate w 0).x (candidate w 0).y &&
          !(decide (game.food.active ≠ 0) &&
            decide (Int.natAbs ((candidate w 0).x - game.food.position.x) < 3) &&
            decide (Int.natAbs ((candidate w 0).y - game.food.position.y) < 3))) = true
      then (true, candidate w 0, after_rand 2 w)
      else add_obstacle_loop game n (candidate w 0) (after_rand 2 w) := rfl

theorem add_obstacle_loop_first (game : GameState) (n : Nat) (p : Point) (w : World)
    (k : Nat) (hk : k < n) (hok : obstacle_ok game (candidate w k))
    (hmin : ∀ j, j < k → ¬ obstacle_ok game (candidate w j)) :
    (add_obstacle_loop game n p w).1 = true ∧
    (add_obstacle_loop game n p w).2.1 = candidate w k := by
  induction n generalizing p w k with
  | zero => omega
  | succ n ih =>
    rw [add_obstacle_loop_succ]
    cases k with
    | zero =>
      rw [if_pos ((obstacle_ok_iff _ _).1 hok)]
      exact ⟨rfl, rfl⟩
    | succ k =>
      have h0 : ¬ obstacle_ok game (candidate w 0) := hmin 0 (Nat.succ_pos k)
      rw [if_neg (fun h => h0 ((obstacle_ok_iff _ _).2 h))]
      have := ih (candidate w 0) (after_rand 2 w) k (by omega)
        (by rw [candidate_after_two]; exact hok)
        (fun j hj => by rw [candidate_after_two]; exact hmin (j + 1) (by omega))
      rw [candidate_after_two] at this
      exact this

theorem add_obstacle_loop_none (game : GameState) (n : Nat) (p : Point) (w : World)
    (hnone : ∀ k, k < n → ¬ obstacle_ok game (candidate w k)) :
    (add_obstacle_loop game n p w).1 = false := by
  induction n generalizing p w with
  | zero => rfl
  | succ n ih =>
    rw [add_obstacle_loop_succ]
    have h0 : ¬ obstacle_ok game (candidate w 0) := hnone 0 (Nat.succ_pos n)
    rw [if_neg (fun h => h0 ((obstacle_ok_iff _ _).2 h))]
    exact ih (candidate w 0) (after_rand 2 w)
      (fun j hj => by rw [candidate_after_two]; exact hnone (j + 1) (by omega))

/-- C18: with the random source an explicit sequence, `add_obstacle` leaves the whole
game state unchanged when `obstacles.count ≥ MAX_OBSTACLES` or when none of the 100
candidates is valid; otherwise (with `0 ≤ count`, so that slot `count` exists) it writes
the first valid candidate into slot `count`, increases `count` by 1 and changes nothing
else.  A candidate is valid when it is on no snake segment, on no existing obstacle,
and not within `|dx| < 3` and `|dy| < 3` of the active food. -/
theorem add_obstacle_spec (game : GameState) (w : World) :
    (game.obstacles.count ≥ MAX_OBSTACLES → (add_obstacle game w).1 = game) ∧
    ((∀ k, k < 100 → ¬ obstacle_ok game (candidate w k)) →
      (add_obstacle game w).1 = game) ∧
    (∀ k, k < 100 → game.obstacles.count < MAX_OBSTACLES → 0 ≤ game.obstacles.count →
      obstacle_ok game (candidate w k) →
      (∀ j, j < k → ¬ obstacle_ok game (candidate w j)) →
      (add_obstacle game w).1.obstacles.count = game.obstacles.count + 1 ∧
      (add_obstacle game w).1.obstacles.obstacles game.obstacles.count.toNat
        = candidate w k ∧
      (∀ i : Nat, i ≠ game.obstacles.count.toNat →
        (add_obstacle game w).1.obstacles.obstacles i = game.obstacles.obstacles i) ∧
      (add_obstacle game w).1.snake = game.snake ∧
      (add_obstacle game w).1.food = game.food ∧
      (add_obstacle game w).1.speed_boost = game.speed_boost ∧
      (add_obstacle game w).1.score = game.score ∧
      (add_obstacle game w).1.state = game.state ∧
      (add_obstacle game w).1.apples_eaten = game.apples_eaten ∧
      (add_obstacle game w).1.special_apples_eaten = game.special_apples_eaten) := by
  refine ⟨fun hfull => ?_, fun hnone => ?_, fun k hk hroom _ hok hmin => ?_⟩
  · unfold add_obstacle
    rw [if_pos hfull]
  · unfold add_obstacle
    dsimp only
    split_ifs with h1 h2
    · rfl
    · rw [add_obstacle_loop_none game 100 _ w hnone] at h2
      exact absurd h2 (by decide)
    · rfl
  · obtain ⟨hv, hp⟩ := add_obstacle_loop_first game 100 ⟨0, 0⟩ w k hk hok hmin
    obtain ⟨f1, f2, f3, f4, f5, f6, f7⟩ := add_obstacle_frame game w
    refine ⟨?_, ?_, ?_, f1, f2, f3, f4, f5, f6, f7⟩
    · unfold add_obstacle
      rw [if_neg (not_le.mpr hroom)]
      dsimp only
      rw [if_pos hv]
    · unfold add_obstacle
      rw [if_neg (not_le.mpr hroom)]
      dsimp only
      rw [if_pos hv]
      dsimp only
      rw [Function.update_same, hp]
    · intro i hi
      unfold add_obstacle
      rw [if_neg (not_le.mpr hroom)]
      dsimp only
      rw [if_pos hv]
      dsimp only
      rw [Function.update_noteq hi]

/-- C18 at a concrete input: three segments at `(20, 5)`, food at `(21, 5)`, no obstacle,
the draws 0, 1, 2, ...; the first candidate `(1, 2)` is valid and becomes obstacle 0. -/
theorem add_obstacle_spec_witness :
    (add_obstacle about_to_eat counting_world).1.obstacles.count = 1 ∧
    (add_obstacle about_to_eat counting_world).1.obstacles.obstacles 0 = ⟨1, 2⟩ :=
  have h := (add_obstacle_spec about_to_eat counting_world).2.2 0 (by decide) (by decide)
    (by decide) ((obstacle_ok_iff _ _).2 (by decide)) (fun j hj => absurd hj (by omega))
  ⟨h.1, h.2.1.trans (by decide)⟩

theorem generate_food_type (snake : Snake) (obstacles : Obstacles) (food : Food)
    (w : World) :
    (generate_food snake obstacles food w).1.type
      = food_type_of ((w.rand_seq 0 : Int) % 100) := rfl

/-- C17: for every non-negative first draw `v`, with `r = v % 100`, `generate_food`
picks Regular iff `r < 60`, Green iff `60 ≤ r < 75`, Gold iff `75 ≤ r < 85` and Blue iff
`85 ≤ r < 100`; the type is always one of the four, and of the 100 residues exactly 60,
15, 10 and 15 give the four types. -/
theorem generate_food_type_spec (snake : Snake) (obstacles : Obstacles) (food : Food) :
    (∀ w : World,
      0 ≤ (w.rand_seq 0 : Int) % 100 ∧ (w.rand_seq 0 : Int) % 100 < 100 ∧
      ((generate_food snake obstacles food w).1.type = FOOD_REGULAR ↔
        (w.rand_seq 0 : Int) % 100 < 60) ∧
      ((generate_food snake obstacles food w).1.type = FOOD_GREEN ↔
        60 ≤ (w.rand_seq 0 : Int) % 100 ∧ (w.rand_seq 0 : Int) % 100 < 75) ∧
      ((generate_food snake obstacles food w).1.type = FOOD_GOLD ↔
        75 ≤ (w.rand_seq 0 : Int) % 100 ∧ (w.rand_seq 0 : Int) % 100 < 85) ∧
      ((generate_food snake obstacles food w).1.type = FOOD_BLUE ↔
        85 ≤ (w.rand_seq 0 : Int) % 100 ∧ (w.rand_seq 0 : Int) % 100 < 100) ∧
      ((generate_food snake obstacles food w).1.type = FOOD_REGULAR ∨
        (generate_food snake obstacles food w).1.type = FOOD_GREEN ∨
        (generate_food snake obstacles food w).1.type = FOOD_GOLD ∨
        (generate_food snake obstacles food w).1.type = FOOD_BLUE)) ∧
    ((List.range 100).filter fun v =>
      decide ((generate_food snake obstacles food (const_world v 0)).1.type
        = FOOD_REGULAR)).length = 60 ∧
    ((List.range 100).filter fun v =>
      decide ((generate_food snake obstacles food (const_world v 0)).1.type
        = FOOD_GREEN)).length = 15 ∧
    ((List.range 100).filter fun v =>
      decide ((generate_food snake obstacles food (const_world v 0)).1.type
        = FOOD_GOLD)).length = 10 ∧
    ((List.range 100).filter fun v =>
      decide ((generate_food snake obstacles food (const_world v 0)).1.type
        = FOOD_BLUE)).length = 15 := by
  refine ⟨fun w => ?_, ?_, ?_, ?_, ?_⟩
  · rw [generate_food_type]
    have h0 : 0 ≤ (w.rand_seq 0 : Int) % 100 := by omega
    have h1 : (w.rand_seq 0 : Int) % 100 < 100 := by omega
    refine ⟨h0, h1, ?_⟩
    generalize (w.rand_seq 0 : Int) % 100 = r at h0 h1
    unfold food_type_of
    simp only [FOOD_REGULAR, FOOD_GREEN, FOOD_GOLD, FOOD_BLUE]
    split_ifs <;> omega
  · show ((List.range 100).filter fun v : Nat =>
      decide (food_type_of ((v : Int) % 100) = FOOD_REGULAR)).length = 60
    decide
  · show ((List.range 100).filter fun v : Nat =>
      decide (food_type_of ((v : Int) % 100) = FOOD_GREEN)).length = 15
    decide
  · show ((List.range 100).filter fun v : Nat =>
      decide (food_type_of ((v : Int) % 100) = FOOD_GOLD)).length = 10
    decide
  · show ((List.range 100).filter fun v : Nat =>
      decide (food_type_of ((v : Int) % 100) = FOOD_BLUE)).length = 15
    decide

/-- C19: with the clock injected as a reading, `is_speed_boost_active` is false when
`boost.active` is 0 and otherwise is true exactly when
`(now.sec - start.sec) * 1000000 + (now.usec - start.usec) < 3000000`; after
`activate_speed_boost` at a reading `t` a query at `t` is true and a query at a reading
with at least 3,000,000 microseconds elapsed is false; and `handle_food_eaten` on Gold
food activates the boost with the reading of its call. -/
theorem is_speed_boost_active_spec (boost : SpeedBoost) (w : World) :
    (boost.active = 0 → (is_speed_boost_active boost w).1 = false) ∧
    (boost.active ≠ 0 →
      ((is_speed_boost_active boost w).1 = true ↔
        ((w.time_seq 0).tv_sec - boost.start_time.tv_sec) * 1000000
          + ((w.time_seq 0).tv_usec - boost.start_time.tv_usec) < 3000000)) ∧
    (∀ w0 : World,
      (activate_speed_boost boost w0).1 = { active := 1, start_time := w0.time_seq 0 } ∧
      (w.time_seq 0 = w0.time_seq 0 →
        (is_speed_boost_active (activate_speed_boost boost w0).1 w).1 = true) ∧
      (((w.time_seq 0).tv_sec - (w0.time_seq 0).tv_sec) * 1000000
          + ((w.time_seq 0).tv_usec - (w0.time_seq 0).tv_usec) ≥ 3000000 →
        (is_speed_boost_active (activate_speed_boost boost w0).1 w).1 = false)) ∧
    (∀ (game : GameState) (w0 : World), game.food.type = FOOD_GOLD →
      (handle_food_eaten game w0).1.speed_boost
        = { active := 1, start_time := w0.time_seq 0 }) := by
  refine ⟨fun h => ?_, fun h => ?_, fun w0 => ⟨rfl, fun h => ?_, fun h => ?_⟩,
    fun game w0 ht => ?_⟩
  · simp [is_speed_boost_active, h]
  · simp [is_speed_boost_active, h, get_time_diff_us, gettimeofday, SPEED_BOOST_DURATION]
  · simp [is_speed_boost_active, activate_speed_boost, get_time_diff_us, gettimeofday,
      SPEED_BOOST_DURATION, h]
  · simp only [is_speed_boost_active, activate_speed_boost, get_time_diff_us, gettimeofday,
      SPEED_BOOST_DURATION]
    simp only [one_ne_zero, if_false, decide_eq_false_iff_not, not_lt]
    exact h
  · simp [handle_food_eaten, ht, FOOD_GOLD, FOOD_REGULAR, FOOD_GREEN, activate_speed_boost,
      gettimeofday]

/-- C19 at concrete readings: activated at `(12, 500)`, the boost is active at
`(12, 500)` and at `(15, 499)`, and no longer at `(15, 500)`. -/
theorem is_speed_boost_active_spec_witness :
    (is_speed_boost_active ⟨1, ⟨12, 500⟩⟩ (clock_at 12 500)).1 = true ∧
    (is_speed_boost_active ⟨1, ⟨12, 500⟩⟩ (clock_at 15 499)).1 = true ∧
    (is_speed_boost_active ⟨1, ⟨12, 500⟩⟩ (clock_at 15 500)).1 = false :=
  ⟨((is_speed_boost_active_spec ⟨1, ⟨12, 500⟩⟩ (clock_at 12 500)).2.1 (by decide)).2
      (by decide),
    ((is_speed_boost_active_spec ⟨1, ⟨12, 500⟩⟩ (clock_at 15 499)).2.1 (by decide)).2
      (by decide),
    by decide⟩

/-- C20: from any prior contents `init_game_state` produces a snake of length 3 heading
right with segments `i = 0, 1, 2` at `(WIDTH / 2 - i, HEIGHT / 2)`, that is `(20, 10)`,
`(19, 10)`, `(18, 10)`, score 0, state `GAME_RUNNING`, inactive food, no obstacle
counted, inactive speed boost, `apples_eaten` 0 and the four per-type counters 0. -/
theorem init_game_state_spec (game : GameState) :
    (init_game_state game).snake.length = 3 ∧
    (init_game_state game).snake.direction = DIR_RIGHT ∧
    (∀ i : Nat, i < 3 →
      (init_game_state game).snake.body i = ⟨WIDTH / 2 - (i : Int), HEIGHT / 2⟩) ∧
    (init_game_state game).snake.body 0 = ⟨20, 10⟩ ∧
    (init_game_state game).snake.body 1 = ⟨19, 10⟩ ∧
    (init_game_state game).snake.body 2 = ⟨18, 10⟩ ∧
    (init_game_state game).score = 0 ∧
    (init_game_state game).state = GAME_RUNNING ∧
    (init_game_state game).food.active = 0 ∧
    (init_game_state game).obstacles.count = 0 ∧
    (init_game_state game).speed_boost.active = 0 ∧
    (init_game_state game).apples_eaten = 0 ∧
    (∀ i : Nat, i < 4 → (init_game_state game).special_apples_eaten i = 0) := by
  refine ⟨rfl, rfl, ?_, rfl, rfl, rfl, rfl, rfl, rfl, rfl, rfl, rfl, ?_⟩
  · intro i hi
    interval_cases i <;> rfl
  · intro i hi
    interval_cases i <;> rfl

/-- C20 at a concrete prior state: a finished game with 51 segments, 20 obstacles and
points; after `init_game_state` the head is at `(20, 10)` and the counters are 0. -/
theorem init_game_state_spec_witness :
    (init_game_state used_game).snake.body 0 = ⟨20, 10⟩ ∧
    (init_game_state used_game).special_apples_eaten 3 = 0 ∧
    (init_game_state used_game).state = GAME_RUNNING :=
  ⟨(init_game_state_spec used_game).2.2.2.1,
    (init_game_state_spec used_game).2.2.2.2.2.2.2.2.2.2.2.2 3 (by decide),
    (init_game_state_spec used_game).2.2.2.2.2.2.2.1⟩

/-! ## Lemmas: what a tick leaves unchanged -/

theorem add_obstacle_obstacles (game : GameState) (w : World) :
    ((add_obstacle game w).1.obstacles.count = game.obstacles.count ∨
      (game.obstacles.count < MAX_OBSTACLES ∧
        (add_obstacle game w).1.obstacles.count = game.obstacles.count + 1)) ∧
    (∀ i : Nat, (i : Int) < game.obstacles.count →
      (add_obstacle game w).1.obstacles.obstacles i = game.obstacles.obstacles i) := by
  unfold add_obstacle
  dsimp only
  split_ifs with h1 h2
  · exact ⟨Or.inl rfl, fun _ _ => rfl⟩
  · refine ⟨Or.inr ⟨not_le.mp h1, rfl⟩, fun i hi => ?_⟩
    dsimp only
    rw [Function.update_noteq (by omega)]
  · exact ⟨Or.inl rfl, fun _ _ => rfl⟩

theorem handle_food_eaten_obstacles (game : GameState) (w : World) :
    ((handle_food_eaten game w).1.obstacles.count = game.obstacles.count ∨
      (game.obstacles.count < MAX_OBSTACLES ∧
        (handle_food_eaten game w).1.obstacles.count = game.obstacles.count + 1)) ∧
    (∀ i : Nat, (i : Int) < game.obstacles.count →
      (handle_food_eaten game w).1.obstacles.obstacles i = game.obstacles.obstacles i) := by
  unfold handle_food_eaten
  dsimp only
  split_ifs
  · exact ⟨Or.inl rfl, fun _ _ => rfl⟩
  · exact ⟨Or.inl rfl, fun _ _ => rfl⟩
  · exact ⟨Or.inl rfl, fun _ _ => rfl⟩
  · exact add_obstacle_obstacles _ w
  · exact ⟨Or.inl rfl, fun _ _ => rfl⟩

theorem handle_food_eaten_snake (game : GameState) (w : World) :
    (handle_food_eaten game w).1.snake = game.snake ∨
    (handle_food_eaten game w).1.snake = grow_snake game.snake 1 ∨
    (handle_food_eaten game w).1.snake = grow_snake game.snake 2 := by
  unfold handle_food_eaten
  dsimp only
  split_ifs
  · exact Or.inr (Or.inl rfl)
  · exact Or.inr (Or.inr rfl)
  · exact Or.inr (Or.inl rfl)
  · exact Or.inr (Or.inl (add_obstacle_frame _ w).1)
  · exact Or.inl rfl

theorem handle_food_eaten_type (game : GameState) (w : World) :
    (handle_food_eaten game w).1.food.type = game.food.type := by
  unfold handle_food_eaten
  dsimp only
  split_ifs <;> simp [(add_obstacle_frame _ _).2.1]

/-- The game after the food-eating step of `update_game`, before the replacement step. -/
theorem update_game_food_split (game : GameState) (w : World) :
    ∃ mid : GameState × World,
      (mid = handle_food_eaten game w ∧ check_food_collision game.snake game.food = true ∨
        mid = (game, w) ∧ check_food_collision game.snake game.food = false) ∧
      (update_game_food game w).1.snake = mid.1.snake ∧
      (update_game_food game w).1.obstacles = mid.1.obstacles ∧
      (update_game_food game w).1.speed_boost = mid.1.speed_boost ∧
      (update_game_food game w).1.score = mid.1.score ∧
      (update_game_food game w).1.state = mid.1.state ∧
      (update_game_food game w).1.apples_eaten = mid.1.apples_eaten ∧
      (update_game_food game w).1.special_apples_eaten = mid.1.special_apples_eaten ∧
      ((update_game_food game w).1.food = mid.1.food ∧ mid.1.food.active ≠ 0 ∨
        (update_game_food game w).1.food
          = (generate_food mid.1.snake mid.1.obstacles mid.1.food mid.2).1 ∧
        mid.1.food.active = 0) := by
  unfold update_game_food
  dsimp only
  cases hc : check_food_collision game.snake game.food
  · refine ⟨(game, w), Or.inr ⟨rfl, rfl⟩, ?_⟩
    simp only [Bool.false_eq_true, if_false]
    split_ifs with h
    · exact ⟨rfl, rfl, rfl, rfl, rfl, rfl, rfl, Or.inr ⟨rfl, h⟩⟩
    · exact ⟨rfl, rfl, rfl, rfl, rfl, rfl, rfl, Or.inl ⟨rfl, h⟩⟩
  · refine ⟨handle_food_eaten game w, Or.inl ⟨rfl, rfl⟩, ?_⟩
    simp only [if_true]
    split_ifs with h
    · exact ⟨rfl, rfl, rfl, rfl, rfl, rfl, rfl, Or.inr ⟨rfl, h⟩⟩
    · exact ⟨rfl, rfl, rfl, rfl, rfl, rfl, rfl, Or.inl ⟨rfl, h⟩⟩

theorem update_game_food_state (game : GameState) (w : World) :
    (update_game_food game w).1.state = game.state := by
  obtain ⟨mid, hmid, -, -, -, -, hst, -⟩ := update_game_food_split game w
  rw [hst]
  rcases hmid with ⟨rfl, -⟩ | ⟨rfl, -⟩
  · exact handle_food_eaten_state game w
  · rfl

/-- The three ways a call of `update_game` ends. -/
theorem update_game_cases (game : GameState) (w : World) :
    (check_collision (update_snake_position game.snake) game.obstacles = true ∧
      update_game game w =
        { ret := GAME_OVER
          game := { game with snake := update_snake_position game.snake, state := GAME_OVER }
          world := w }) ∨
    (check_collision (update_snake_position game.snake) game.obstacles = false ∧
      game.snake.length ≥ WIN_LENGTH ∧
      update_game game w =
        { ret := GAME_WON
          game := { game with snake := update_snake_position game.snake, state := GAME_WON }
          world := w }) ∨
    (check_collision (update_snake_position game.snake) game.obstacles = false ∧
      game.snake.length < WIN_LENGTH ∧
      update_game game w =
        { ret := GAME_RUNNING
          game := (update_game_boost
            (update_game_food { game with snake := update_snake_position game.snake } w).1
            (update_game_food { game with snake := update_snake_position game.snake } w).2).1
          world := (update_game_boost
            (update_game_food { game with snake := update_snake_position game.snake } w).1
            (update_game_food
              { game with snake := update_snake_position game.snake } w).2).2 }) := by
  cases hc : check_collision (update_snake_position game.snake) game.obstacles
  · by_cases hl : game.snake.length ≥ WIN_LENGTH
    · exact Or.inr (Or.inl ⟨rfl, hl, update_game_won_eq game w hc hl⟩)
    · exact Or.inr (Or.inr ⟨rfl, not_le.mp hl, update_game_running game w hc (not_le.mp hl)⟩)
  · exact Or.inl ⟨rfl, update_game_over_eq game w hc⟩

/-- C21: `update_game` never returns `GAME_QUIT`: it returns `GAME_RUNNING`, `GAME_OVER`
or `GAME_WON`; when it returns `GAME_OVER` or `GAME_WON` the stored state is the returned
value, when it returns `GAME_RUNNING` the stored state is unchanged, so it never stores
a status it does not return, and from state `GAME_RUNNING` the returned value is the
stored state afterwards. -/
theorem update_game_status (game : GameState) (w : World) :
    (update_game game w).ret ≠ GAME_QUIT ∧
    ((update_game game w).ret = GAME_RUNNING ∨ (update_game game w).ret = GAME_OVER ∨
      (update_game game w).ret = GAME_WON) ∧
    ((update_game game w).ret = GAME_OVER ∨ (update_game game w).ret = GAME_WON →
      (update_game game w).game.state = (update_game game w).ret) ∧
    ((update_game game w).ret = GAME_RUNNING →
      (update_game game w).game.state = game.state) ∧
    ((update_game game w).game.state = game.state ∨
      (update_game game w).game.state = (update_game game w).ret) ∧
    (game.state = GAME_RUNNING →
      (update_game game w).game.state = (update_game game w).ret) := by
  have hrun : (update_game_boost
      (update_game_food { game with snake := update_snake_position game.snake } w).1
      (update_game_food { game with snake := update_snake_position game.snake } w).2).1.state
      = game.state := by
    rw [(update_game_boost_frame _ _).2.2.2.2.1, update_game_food_state]
  have e1 : GAME_OVER ≠ GAME_QUIT := by decide
  have e2 : GAME_WON ≠ GAME_QUIT := by decide
  have e3 : GAME_RUNNING ≠ GAME_QUIT := by decide
  have e4 : GAME_OVER ≠ GAME_RUNNING := by decide
  have e5 : GAME_WON ≠ GAME_RUNNING := by decide
  rcases update_game_cases game w with ⟨-, h⟩ | ⟨-, -, h⟩ | ⟨-, -, h⟩
  · rw [h]
    exact ⟨e1, Or.inr (Or.inl rfl), fun _ => rfl, fun h => absurd h e4,
      Or.inr rfl, fun _ => rfl⟩
  · rw [h]
    exact ⟨e2, Or.inr (Or.inr rfl), fun _ => rfl, fun h => absurd h e5,
      Or.inr rfl, fun _ => rfl⟩
  · rw [h]
    refine ⟨e3, Or.inl rfl, fun h => ?_, fun _ => hrun, Or.inl hrun, fun h => ?_⟩
    · rcases h with h | h
      · exact absurd h.symm e4
      · exact absurd h.symm e5
    · exact hrun.trans h

/-- C23 fails on the code: without a boost the delay for `DIR_UP` is 170000 and for
`DIR_RIGHT` 100000, with a boost 85000 and 50000; for each flag the vertical delay is
the longer one, for both vertical and both horizontal directions. -/
theorem vertical_delay_is_longer :
    get_movement_delay DIR_UP 0 = 170000 ∧ get_movement_delay DIR_DOWN 0 = 170000 ∧
    get_movement_delay DIR_LEFT 0 = 100000 ∧ get_movement_delay DIR_RIGHT 0 = 100000 ∧
    get_movement_delay DIR_UP 1 = 85000 ∧ get_movement_delay DIR_DOWN 1 = 85000 ∧
    get_movement_delay DIR_LEFT 1 = 50000 ∧ get_movement_delay DIR_RIGHT 1 = 50000 ∧
    ¬ (get_movement_delay DIR_UP 0 < get_movement_delay DIR_RIGHT 0) ∧
    ¬ (get_movement_delay DIR_UP 1 < get_movement_delay DIR_RIGHT 1) ∧
    (∀ flag : Int,
      get_movement_delay DIR_LEFT flag < get_movement_delay DIR_UP flag ∧
      get_movement_delay DIR_LEFT flag < get_movement_delay DIR_DOWN flag ∧
      get_movement_delay DIR_RIGHT flag < get_movement_delay DIR_UP flag ∧
      get_movement_delay DIR_RIGHT flag < get_movement_delay DIR_DOWN flag) := by
  refine ⟨by decide, by decide, by decide, by decide, by decide, by decide, by decide,
    by decide, by decide, by decide, fun flag => ?_⟩
  unfold get_movement_delay
  by_cases h : flag = 0
  · subst h
    decide
  · simp only [ne_eq, h, not_false_eq_true, if_true]
    decide

theorem food_type_of_valid (r : Int) :
    food_type_of r = FOOD_REGULAR ∨ food_type_of r = FOOD_GREEN ∨
    food_type_of r = FOOD_GOLD ∨ food_type_of r = FOOD_BLUE := by
  unfold food_type_of
  split_ifs
  · exact Or.inl rfl
  · exact Or.inr (Or.inl rfl)
  · exact Or.inr (Or.inr (Or.inl rfl))
  · exact Or.inr (Or.inr (Or.inr rfl))

theorem grow_snake_length_bounds (snake : Snake) (amount : Int)
    (h : snake.length ≤ MAX_SNAKE_LENGTH) :
    snake.length ≤ (grow_snake snake amount).length ∧
    (grow_snake snake amount).length ≤ MAX_SNAKE_LENGTH := by
  rw [grow_snake_eq_min snake amount h]
  refine ⟨le_min ?_ h, min_le_right _ _⟩
  have := le_max_right amount 0
  omega

/-- C24 fails on the code: two games that differ only in the unused body slot 3 (`(0, 0)`
against `(2, 3)`), ticked with the same random source and clock, both eat and grow to
four segments, and then differ in the live segment 3, which is the old content of the
slot, and in the new food, which goes to the candidate `(2, 3)` in the first game and is
pushed to `(4, 5)` in the second. -/
theorem unused_slot_leaks :
    eat_regular ⟨0, 0⟩ =
      { eat_regular ⟨2, 3⟩ with
        snake := { (eat_regular ⟨2, 3⟩).snake with body := (eat_regular ⟨0, 0⟩).snake.body } } ∧
    (eat_regular ⟨0, 0⟩).snake.length = 3 ∧
    (∀ i : Nat, i < 3 →
      (eat_regular ⟨0, 0⟩).snake.body i = (eat_regular ⟨2, 3⟩).snake.body i) ∧
    (update_game (eat_regular ⟨0, 0⟩) counting_world).ret = GAME_RUNNING ∧
    (update_game (eat_regular ⟨2, 3⟩) counting_world).ret = GAME_RUNNING ∧
    (update_game (eat_regular ⟨0, 0⟩) counting_world).game.snake.length = 4 ∧
    (update_game (eat_regular ⟨2, 3⟩) counting_world).game.snake.length = 4 ∧
    (update_game (eat_regular ⟨0, 0⟩) counting_world).game.snake.body 3 = ⟨0, 0⟩ ∧
    (update_game (eat_regular ⟨2, 3⟩) counting_world).game.snake.body 3 = ⟨2, 3⟩ ∧
    (update_game (eat_regular ⟨0, 0⟩) counting_world).game.food.position = ⟨2, 3⟩ ∧
    (update_game (eat_regular ⟨2, 3⟩) counting_world).game.food.position = ⟨4, 5⟩ := by
  refine ⟨rfl, by decide, by decide, by decide, by decide, by decide, by decide,
    by decide, by decide, by decide, by decide⟩

/-- A tick keeps the bounds on the length, the obstacle count and the food type. -/
theorem update_game_keeps_bounds (game : GameState) (w : World)
    (hlen : 1 ≤ game.snake.length ∧ game.snake.length ≤ MAX_SNAKE_LENGTH)
    (hcount : 0 ≤ game.obstacles.count ∧ game.obstacles.count ≤ MAX_OBSTACLES)
    (htype : game.food.type = FOOD_REGULAR ∨ game.food.type = FOOD_GREEN ∨
      game.food.type = FOOD_GOLD ∨ game.food.type = FOOD_BLUE) :
    (1 ≤ (update_game game w).game.snake.length ∧
      (update_game game w).game.snake.length ≤ MAX_SNAKE_LENGTH) ∧
    (0 ≤ (update_game game w).game.obstacles.count ∧
      (update_game game w).game.obstacles.count ≤ MAX_OBSTACLES) ∧
    ((update_game game w).game.food.type = FOOD_REGULAR ∨
      (update_game game w).game.food.type = FOOD_GREEN ∨
      (update_game game w).game.food.type = FOOD_GOLD ∨
      (update_game game w).game.food.type = FOOD_BLUE) := by
  rcases update_game_cases game w with ⟨-, h⟩ | ⟨-, -, h⟩ | ⟨-, -, h⟩
  · rw [h]
    exact ⟨hlen, hcount, htype⟩
  · rw [h]
    exact ⟨hlen, hcount, htype⟩
  · rw [h]
    obtain ⟨bsn, bfood, bobs, -⟩ := update_game_boost_frame
      (update_game_food { game with snake := update_snake_position game.snake } w).1
      (update_game_food { game with snake := update_snake_position game.snake } w).2
    obtain ⟨mid, hmid, hsn, hobs, -, -, -, -, -, hfood⟩ :=
      update_game_food_split { game with snake := update_snake_position game.snake } w
    simp only [bsn, bfood, bobs, hsn, hobs]
    have hmidlen : 1 ≤ mid.1.snake.length ∧ mid.1.snake.length ≤ MAX_SNAKE_LENGTH := by
      rcases hmid with ⟨rfl, -⟩ | ⟨rfl, -⟩
      · have hl : (update_snake_position game.snake).length ≤ MAX_SNAKE_LENGTH := hlen.2
        have h1 : 1 ≤ (update_snake_position game.snake).length := hlen.1
        rcases handle_food_eaten_snake
          { game with snake := update_snake_position game.snake } w with e | e | e
        · rw [e]
          exact ⟨h1, hl⟩
        · rw [e]
          have := grow_snake_length_bounds (update_snake_position game.snake) 1 hl
          exact ⟨le_trans h1 this.1, this.2⟩
        · rw [e]
          have := grow_snake_length_bounds (update_snake_position game.snake) 2 hl
          exact ⟨le_trans h1 this.1, this.2⟩
      · exact hlen
    have hmidcount : 0 ≤ mid.1.obstacles.count ∧ mid.1.obstacles.count ≤ MAX_OBSTACLES := by
      rcases hmid with ⟨rfl, -⟩ | ⟨rfl, -⟩
      · rcases (handle_food_eaten_obstacles
          { game with snake := update_snake_position game.snake } w).1 with e | ⟨hlt, e⟩
        · rw [e]
          exact hcount
        · rw [e]
          have h0 := hcount.1
          have hlt2 : game.obstacles.count < MAX_OBSTACLES := hlt
          show 0 ≤ game.obstacles.count + 1 ∧ game.obstacles.count + 1 ≤ MAX_OBSTACLES
          exact ⟨by omega, by omega⟩
      · exact hcount
    have hmidtype : mid.1.food.type = game.food.type := by
      rcases hmid with ⟨rfl, -⟩ | ⟨rfl, -⟩
      · exact handle_food_eaten_type _ w
      · rfl
    refine ⟨hmidlen, hmidcount, ?_⟩
    rcases hfood with ⟨e, -⟩ | ⟨e, -⟩
    · rw [e, hmidtype]
      exact htype
    · rw [e, generate_food_type]
      exact food_type_of_valid _

/-- C26: for a game with `obstacles.count ≤ MAX_OBSTACLES` and every random source and
clock, `update_game` leaves each obstacle at an index below the old count unchanged, and
the new count is the old count or the old count plus one. -/
theorem update_game_obstacles_permanent (game : GameState) (w : World)
    (_hcount : game.obstacles.count ≤ MAX_OBSTACLES) :
    (∀ i : Nat, (i : Int) < game.obstacles.count →
      (update_game game w).game.obstacles.obstacles i = game.obstacles.obstacles i) ∧
    ((update_game game w).game.obstacles.count = game.obstacles.count ∨
      (update_game game w).game.obstacles.count = game.obstacles.count + 1) := by
  rcases update_game_cases game w with ⟨-, h⟩ | ⟨-, -, h⟩ | ⟨-, -, h⟩
  · rw [h]
    exact ⟨fun _ _ => rfl, Or.inl rfl⟩
  · rw [h]
    exact ⟨fun _ _ => rfl, Or.inl rfl⟩
  · rw [h]
    obtain ⟨-, -, bobs, -⟩ := update_game_boost_frame
      (update_game_food { game with snake := update_snake_position game.snake } w).1
      (update_game_food { game with snake := update_snake_position game.snake } w).2
    obtain ⟨mid, hmid, -, hobs, -⟩ :=
      update_game_food_split { game with snake := update_snake_position game.snake } w
    simp only [bobs, hobs]
    rcases hmid with ⟨rfl, -⟩ | ⟨rfl, -⟩
    · obtain ⟨hc, hkeep⟩ := handle_food_eaten_obstacles
        { game with snake := update_snake_position game.snake } w
      refine ⟨fun i hi => hkeep i hi, ?_⟩
      rcases hc with e | ⟨-, e⟩
      · exact Or.inl e
      · exact Or.inr e
    · exact ⟨fun _ _ => rfl, Or.inl rfl⟩

/-- C26 at a concrete state: two obstacles at `(3, 3)` and `(7, 9)`, Blue food eaten; after
the tick both are where they were and a third one has been added, at `(1, 2)`. -/
theorem update_game_obstacles_permanent_witness :
    eat_blue_with_obstacles.obstacles.count = 2 ∧
    eat_blue_with_obstacles.obstacles.count ≤ MAX_OBSTACLES ∧
    (update_game eat_blue_with_obstacles counting_world).game.obstacles.obstacles 0
      = ⟨3, 3⟩ ∧
    (update_game eat_blue_with_obstacles counting_world).game.obstacles.obstacles 1
      = ⟨7, 9⟩ ∧
    (update_game eat_blue_with_obstacles counting_world).game.obstacles.count = 2 + 1 ∧
    (update_game eat_blue_with_obstacles counting_world).game.obstacles.obstacles 2
      = ⟨1, 2⟩ :=
  have h := update_game_obstacles_permanent eat_blue_with_obstacles counting_world
    (by decide)
  ⟨rfl, by decide, (h.1 0 (by decide)).trans (by decide),
    (h.1 1 (by decide)).trans (by decide),
    h.2.resolve_left (by decide), by decide⟩

/-! ## Lemmas: the accounting invariant -/

theorem init_game_state_invariant (game : GameState) :
    run_invariant (init_game_state game) := by
  have h : (3 : Int) ≤ MAX_SNAKE_LENGTH := by decide
  exact ⟨⟨rfl, rfl, rfl, h⟩, Or.inl rfl⟩

theorem handle_food_eaten_accounting (game : GameState) (w : World)
    (hinv : run_invariant game) (hlen : game.snake.length < WIN_LENGTH) :
    accounting (handle_food_eaten game w).1 := by
  obtain ⟨⟨ha, hs, hl, -⟩, htype⟩ := hinv
  have hlen1 : game.snake.length < 50 := hlen
  have g1 : (grow_snake game.snake 1).length = game.snake.length + 1 := by
    have := grow_snake_length game.snake 1 (by simp only [MAX_SNAKE_LENGTH]; omega)
    simpa using this
  have g2 : (grow_snake game.snake 2).length = game.snake.length + 2 := by
    have := grow_snake_length game.snake 2 (by simp only [MAX_SNAKE_LENGTH]; omega)
    simpa using this
  unfold accounting
  rw [handle_food_eaten_apples, handle_food_eaten_special]
  rcases htype with ht | ht | ht | ht
  · obtain ⟨hsc, hsn⟩ := handle_food_eaten_regular game w ht
    rw [hsc, hsn, g1, ht]
    simp only [FOOD_REGULAR, Function.update, MAX_SNAKE_LENGTH]
    simp
    omega
  · obtain ⟨hsc, hsn⟩ := handle_food_eaten_green game w ht
    rw [hsc, hsn, g2, ht]
    simp only [FOOD_GREEN, Function.update, MAX_SNAKE_LENGTH]
    simp
    omega
  · obtain ⟨hsc, hsn⟩ := handle_food_eaten_gold game w ht
    rw [hsc, hsn, g1, ht]
    simp only [FOOD_GOLD, Function.update, MAX_SNAKE_LENGTH]
    simp
    omega
  · obtain ⟨hsc, hsn⟩ := handle_food_eaten_blue game w ht
    rw [hsc, hsn, g1, ht]
    simp only [FOOD_BLUE, Function.update, MAX_SNAKE_LENGTH]
    simp
    omega

theorem update_game_invariant (game : GameState) (w : World) (hinv : run_invariant game) :
    run_invariant (update_game game w).game := by
  rcases update_game_cases game w with ⟨-, h⟩ | ⟨-, -, h⟩ | ⟨-, hlen, h⟩
  · rw [h]
    exact hinv
  · rw [h]
    exact hinv
  · rw [h]
    obtain ⟨bsn, bfood, -, bsc, -, bap, bsp⟩ := update_game_boost_frame
      (update_game_food { game with snake := update_snake_position game.snake } w).1
      (update_game_food { game with snake := update_snake_position game.snake } w).2
    obtain ⟨mid, hmid, hsn, -, -, hsc, -, hap, hsp, hfood⟩ :=
      update_game_food_split { game with snake := update_snake_position game.snake } w
    have hmoved : run_invariant { game with snake := update_snake_position game.snake } :=
      hinv
    have hmidinv : run_invariant mid.1 := by
      rcases hmid with ⟨rfl, -⟩ | ⟨rfl, -⟩
      · refine ⟨handle_food_eaten_accounting _ w hmoved hlen, ?_⟩
        rw [handle_food_eaten_type]
        exact hinv.2
      · exact hmoved
    refine ⟨?_, ?_⟩
    · unfold accounting
      simp only [bsn, bsc, bap, bsp, hsn, hsc, hap, hsp]
      exact hmidinv.1
    · simp only [bfood]
      rcases hfood with ⟨e, -⟩ | ⟨e, -⟩
      · rw [e]
        exact hmidinv.2
      · rw [e, generate_food_type]
        exact food_type_of_valid _

theorem apply_action_invariant (game : GameState) (a : Action) (hinv : run_invariant game) :
    run_invariant (apply_action game a) := by
  cases a with
  | tick w => exact update_game_invariant game w hinv
  | turn d => exact hinv
  | status s => exact hinv

theorem run_actions_invariant (actions : List Action) (game : GameState)
    (hinv : run_invariant game) : run_invariant (run_actions game actions) := by
  induction actions generalizing game with
  | nil => exact hinv
  | cons a rest ih =>
    exact ih (apply_action game a) (apply_action_invariant game a hinv)

/-- C27: in every state reached from `init_game_state` (on any prior contents) by any
sequence of `update_game` calls, with any random source and clock at each call,
interleaved with caller writes to the direction and the status, with `c0 .. c3` the
per-type counters: `apples_eaten = c0 + c1 + c2 + c3`,
`score = 10 c0 + 20 c1 + 50 c2 + 15 c3` and
`snake.length = 3 + c0 + 2 c1 + c2 + c3 ≤ MAX_SNAKE_LENGTH`. -/
theorem accounting_invariant (prior : GameState) (actions : List Action) :
    (run_actions (init_game_state prior) actions).apples_eaten =
      (run_actions (init_game_state prior) actions).special_apples_eaten 0 +
        (run_actions (init_game_state prior) actions).special_apples_eaten 1 +
        (run_actions (init_game_state prior) actions).special_apples_eaten 2 +
        (run_actions (init_game_state prior) actions).special_apples_eaten 3 ∧
    (run_actions (init_game_state prior) actions).score =
      10 * (run_actions (init_game_state prior) actions).special_apples_eaten 0 +
        20 * (run_actions (init_game_state prior) actions).special_apples_eaten 1 +
        50 * (run_actions (init_game_state prior) actions).special_apples_eaten 2 +
        15 * (run_actions (init_game_state prior) actions).special_apples_eaten 3 ∧
    (run_actions (init_game_state prior) actions).snake.length =
      3 + (run_actions (init_game_state prior) actions).special_apples_eaten 0 +
        2 * (run_actions (init_game_state prior) actions).special_apples_eaten 1 +
        (run_actions (init_game_state prior) actions).special_apples_eaten 2 +
        (run_actions (init_game_state prior) actions).special_apples_eaten 3 ∧
    (run_actions (init_game_state prior) actions).snake.length ≤ MAX_SNAKE_LENGTH :=
  (run_actions_invariant actions (init_game_state prior)
    (init_game_state_invariant prior)).1

/-! ## Lemmas: the head after a move, and the obstacle `add_obstacle` places -/

theorem move_head_ne (d : Int) (p : Point)
    (hd : d = DIR_UP ∨ d = DIR_RIGHT ∨ d = DIR_DOWN ∨ d = DIR_LEFT) :
    move_head d p ≠ p := by
  cases p with
  | mk px py =>
  rcases hd with rfl | rfl | rfl | rfl <;>
    simp [move_head, DIR_UP, DIR_RIGHT, DIR_DOWN, DIR_LEFT]

theorem add_obstacle_loop_valid (game : GameState) (n : Nat) (p : Point) (w : World)
    (h : (add_obstacle_loop game n p w).1 = true) :
    obstacle_ok game (add_obstacle_loop game n p w).2.1 := by
  induction n generalizing p w with
  | zero => exact absurd (show false = true from h) Bool.false_ne_true
  | succ n ih =>
    rw [add_obstacle_loop_succ] at h ⊢
    split_ifs at h ⊢ with hc
    · exact (obstacle_ok_iff game (candidate w 0)).2 hc
    · exact ih _ _ h

theorem add_obstacle_added (game : GameState) (w : World)
    (h : (add_obstacle game w).1.obstacles.count = game.obstacles.count + 1) :
    obstacle_ok game
      ((add_obstacle game w).1.obstacles.obstacles game.obstacles.count.toNat) := by
  unfold add_obstacle at h ⊢
  dsimp only at h ⊢
  split_ifs at h ⊢ with h1 h2
  · have h3 : game.obstacles.count = game.obstacles.count + 1 := h
    omega
  · dsimp only
    rw [Function.update_same]
    exact add_obstacle_loop_valid game 100 _ w h2
  · have h3 : game.obstacles.count = game.obstacles.count + 1 := h
    omega

theorem handle_food_eaten_blue_obstacles (game : GameState) (w : World)
    (ht : game.food.type = FOOD_BLUE) :
    ∃ g : GameState, g.food = game.food ∧ g.obstacles = game.obstacles ∧
      g.snake.body = game.snake.body ∧
      (handle_food_eaten game w).1.obstacles = (add_obstacle g w).1.obstacles := by
  refine ⟨{ game with
    apples_eaten := game.apples_eaten + 1
    special_apples_eaten :=
      Function.update game.special_apples_eaten game.food.type.toNat
        (game.special_apples_eaten game.food.type.toNat + 1)
    score := game.score + 15
    snake := grow_snake game.snake 1 }, rfl, rfl, (grow_snake_loop_body _ _).1, ?_⟩
  simp [handle_food_eaten, ht, FOOD_BLUE, FOOD_GOLD, FOOD_GREEN, FOOD_REGULAR]

/-- C28: for a snake with `1 ≤ length ≤ MAX_SNAKE_LENGTH` heading in one of the four
directions, `check_self_collision` after `update_snake_position` is true exactly when
the new head equals the position, before the move, of a segment with index in
`1 .. length - 2`; so a head that moves onto the cell which, of those segments and the
last one, only the old last segment occupied does not collide. -/
theorem self_collision_after_move (snake : Snake)
    (_hlo : 1 ≤ snake.length) (_hhi : snake.length ≤ MAX_SNAKE_LENGTH)
    (hdir : snake.direction = DIR_UP ∨ snake.direction = DIR_RIGHT ∨
      snake.direction = DIR_DOWN ∨ snake.direction = DIR_LEFT) :
    (check_self_collision (update_snake_position snake) = true ↔
      ∃ j : Nat, 1 ≤ j ∧ (j : Int) ≤ snake.length - 2 ∧
        snake.body j = (update_snake_position snake).body 0) ∧
    ((update_snake_position snake).body 0 = snake.body (snake.length - 1).toNat →
      (∀ j : Nat, 1 ≤ j → (j : Int) ≤ snake.length - 2 →
        snake.body j ≠ snake.body (snake.length - 1).toNat) →
      check_self_collision (update_snake_position snake) = false) := by
  have hiff : check_self_collision (update_snake_position snake) = true ↔
      ∃ j : Nat, 1 ≤ j ∧ (j : Int) ≤ snake.length - 2 ∧
        snake.body j = (update_snake_position snake).body 0 := by
    rw [check_self_collision_iff]
    constructor
    · rintro ⟨i, hi, hlt, he⟩
      have hlt2 : (i : Int) < snake.length := hlt
      rw [update_snake_position_segment snake i (by omega) hlt2] at he
      have hne : i - 1 ≠ 0 := by
        intro h0
        rw [h0, update_snake_position_head] at he
        exact move_head_ne _ _ hdir he.symm
      exact ⟨i - 1, by omega, by omega, he⟩
    · rintro ⟨j, hj, hle, he⟩
      refine ⟨j + 1, by omega, ?_, ?_⟩
      · show ((j + 1 : Nat) : Int) < snake.length
        omega
      · rw [update_snake_position_segment snake (j + 1) (by omega) (by omega)]
        exact he
  refine ⟨hiff, fun hhead honly => ?_⟩
  rw [← Bool.not_eq_true, hiff]
  rintro ⟨j, hj, hle, he⟩
  exact honly j hj hle (he.trans hhead)

/-- C28 at a concrete snake: four segments in a square, the head moves down onto the
cell the last segment leaves; no self-collision. -/
theorem self_collision_after_move_witness :
    (update_snake_position square_snake).body 0 = square_snake.body 3 ∧
    check_self_collision (update_snake_position square_snake) = false :=
  ⟨by decide,
    (self_collision_after_move square_snake (by decide) (by decide) (by decide)).2
      (by decide) (fun j hj hle => by
        have hle2 : (j : Int) ≤ 2 := hle
        have hj2 : j = 1 ∨ j = 2 := by omega
        rcases hj2 with rfl | rfl <;> decide)⟩

/-- C29: when the food is active, of type Blue and at the head position, and
`handle_food_eaten` adds an obstacle (the count grows by one), the obstacle it wrote is
not within `|dx| < 3` and `|dy| < 3` of the snake head; for every random source. -/
theorem blue_obstacle_away_from_head (game : GameState) (w : World)
    (hact : game.food.active ≠ 0) (htype : game.food.type = FOOD_BLUE)
    (hpos : game.food.position = game.snake.body 0)
    (hadded : (handle_food_eaten game w).1.obstacles.count = game.obstacles.count + 1) :
    ¬ (|((handle_food_eaten game w).1.obstacles.obstacles
          game.obstacles.count.toNat).x - (game.snake.body 0).x| < 3 ∧
        |((handle_food_eaten game w).1.obstacles.obstacles
          game.obstacles.count.toNat).y - (game.snake.body 0).y| < 3) := by
  obtain ⟨g, hfood, hobs, -, he⟩ := handle_food_eaten_blue_obstacles game w htype
  rw [he] at hadded ⊢
  rw [← hobs] at hadded ⊢
  have hok := add_obstacle_added g w hadded
  rw [← hpos, ← hfood]
  intro hnear
  exact hok.2 ⟨by rw [hfood]; exact hact, hnear.1, hnear.2⟩

/-- C29 at a concrete state: Blue food under the head at `(20, 5)`, the draws 0, 1, 2,
...; the obstacle is written at `(1, 2)`, 19 columns away. -/
theorem blue_obstacle_away_from_head_witness :
    (handle_food_eaten (head_on_food FOOD_BLUE) counting_world).1.obstacles.count = 1 ∧
    (handle_food_eaten (head_on_food FOOD_BLUE) counting_world).1.obstacles.obstacles 0
      = ⟨1, 2⟩ ∧
    ¬ (|((handle_food_eaten (head_on_food FOOD_BLUE) counting_world).1.obstacles.obstacles
          (head_on_food FOOD_BLUE).obstacles.count.toNat).x
          - ((head_on_food FOOD_BLUE).snake.body 0).x| < 3 ∧
        |((handle_food_eaten (head_on_food FOOD_BLUE) counting_world).1.obstacles.obstacles
          (head_on_food FOOD_BLUE).obstacles.count.toNat).y
          - ((head_on_food FOOD_BLUE).snake.body 0).y| < 3) :=
  ⟨by decide, by decide,
    blue_obstacle_away_from_head (head_on_food FOOD_BLUE) counting_world (by decide) rfl rfl
      (by decide)⟩

/-! ## Lemmas: what the code reads and writes of its arrays -/

theorem find_point_congr (a1 a2 : Nat → Point) (x y : Int) (i n : Nat)
    (h : ∀ j, i ≤ j → j < i + n → a1 j = a2 j) :
    find_point a1 x y i n = find_point a2 x y i n := by
  induction n generalizing i with
  | zero => rfl
  | succ n ih =>
    simp only [find_point]
    rw [h i (le_refl i) (by omega), ih (i + 1) (fun j h1 h2 => h j (by omega) (by omega))]

theorem update_snake_position_body (snake : Snake) (i : Nat) :
    (update_snake_position snake).body i =
      if i = 0 then move_head snake.direction (snake.body 0)
      else if (i : Int) < snake.length then snake.body (i - 1)
      else snake.body i := by
  by_cases h0 : i = 0
  · rw [if_pos h0, h0]
    exact update_snake_position_head snake
  · rw [if_neg h0]
    unfold update_snake_position
    dsimp only
    rw [Function.update_noteq h0, shift_body_apply]
    by_cases hlt : (i : Int) < snake.length
    · rw [if_pos hlt, if_pos (by omega)]
    · rw [if_neg hlt, if_neg (by omega)]

theorem update_snake_position_same (s1 s2 : Snake) (h : same_snake s1 s2) :
    same_snake (update_snake_position s1) (update_snake_position s2) := by
  obtain ⟨hb, hl, hd⟩ := h
  refine ⟨fun i hi => ?_, hl, hd⟩
  have hi2 : (i : Int) < 51 := hi
  have h0 : s1.body 0 = s2.body 0 := hb 0 (by decide)
  rw [update_snake_position_body, update_snake_position_body, hd, hl, h0,
    hb i hi, hb (i - 1) (by show ((i - 1 : Nat) : Int) < 51; omega)]

theorem check_collision_same (s1 s2 : Snake) (o1 o2 : Obstacles)
    (hs : same_snake s1 s2) (ho : same_obstacles o1 o2)
    (hlen : s1.length ≤ MAX_SNAKE_LENGTH) (hcount : o1.count ≤ MAX_OBSTACLES) :
    check_collision s1 o1 = check_collision s2 o2 := by
  obtain ⟨hb, hl, -⟩ := hs
  obtain ⟨hob, hc⟩ := ho
  have hlen2 : s1.length ≤ 51 := hlen
  have hcount2 : o1.count ≤ 20 := hcount
  have h0 : s1.body 0 = s2.body 0 := hb 0 (by decide)
  unfold check_collision check_wall_collision check_self_collision check_obstacle_collision
  rw [← h0, ← hl, ← hc]
  rw [find_point_congr s1.body s2.body _ _ 1 _
    (fun j _ h2 => hb j (by show (j : Int) < 51; omega))]
  rw [find_point_congr o1.obstacles o2.obstacles _ _ 0 _
    (fun j _ h2 => hob j (by show (j : Int) < 20; omega))]

theorem check_food_collision_same (s1 s2 : Snake) (food : Food) (hs : same_snake s1 s2) :
    check_food_collision s1 food = check_food_collision s2 food := by
  unfold check_food_collision
  rw [hs.1 0 (by decide)]

theorem is_position_on_snake_same (s1 s2 : Snake) (x y : Int) (hs : same_snake s1 s2)
    (hlen : s1.length ≤ MAX_SNAKE_LENGTH) :
    is_position_on_snake s1 x y = is_position_on_snake s2 x y := by
  obtain ⟨hb, hl, -⟩ := hs
  have hlen2 : s1.length ≤ 51 := hlen
  unfold is_position_on_snake
  rw [← hl]
  exact find_point_congr _ _ _ _ 0 _ (fun j _ h2 => hb j (by show (j : Int) < 51; omega))

theorem is_position_on_obstacle_same (o1 o2 : Obstacles) (x y : Int)
    (ho : same_obstacles o1 o2) (hcount : o1.count ≤ MAX_OBSTACLES) :
    is_position_on_obstacle o1 x y = is_position_on_obstacle o2 x y := by
  obtain ⟨hob, hc⟩ := ho
  have hcount2 : o1.count ≤ 20 := hcount
  unfold is_position_on_obstacle
  rw [← hc]
  exact find_point_congr _ _ _ _ 0 _ (fun j _ h2 => hob j (by show (j : Int) < 20; omega))

theorem generate_food_loop_same (s1 s2 : Snake) (o1 o2 : Obstacles)
    (hs : same_snake s1 s2) (ho : same_obstacles o1 o2)
    (hlen : s1.length ≤ MAX_SNAKE_LENGTH) (hcount : o1.count ≤ MAX_OBSTACLES)
    (n : Nat) (position : Point) (w : World) :
    generate_food_loop s1 o1 n position w = generate_food_loop s2 o2 n position w := by
  induction n generalizing position w with
  | zero => rfl
  | succ n ih =>
    rw [generate_food_loop_succ, generate_food_loop_succ, ih,
      is_position_on_snake_same s1 s2 _ _ hs hlen,
      is_position_on_obstacle_same o1 o2 _ _ ho hcount]

theorem generate_food_same (s1 s2 : Snake) (o1 o2 : Obstacles) (food : Food) (w : World)
    (hs : same_snake s1 s2) (ho : same_obstacles o1 o2)
    (hlen : s1.length ≤ MAX_SNAKE_LENGTH) (hcount : o1.count ≤ MAX_OBSTACLES) :
    generate_food s1 o1 food w = generate_food s2 o2 food w := by
  unfold generate_food
  dsimp only
  rw [generate_food_loop_same s1 s2 o1 o2 hs ho hlen hcount]

theorem add_obstacle_loop_same (g1 g2 : GameState)
    (hs : same_snake g1.snake g2.snake) (ho : same_obstacles g1.obstacles g2.obstacles)
    (hf : g1.food = g2.food)
    (hlen : g1.snake.length ≤ MAX_SNAKE_LENGTH)
    (hcount : g1.obstacles.count ≤ MAX_OBSTACLES)
    (n : Nat) (p : Point) (w : World) :
    add_obstacle_loop g1 n p w = add_obstacle_loop g2 n p w := by
  induction n generalizing p w with
  | zero => rfl
  | succ n ih =>
    rw [add_obstacle_loop_succ, add_obstacle_loop_succ, ih,
      is_position_on_snake_same g1.snake g2.snake _ _ hs hlen,
      is_position_on_obstacle_same g1.obstacles g2.obstacles _ _ ho hcount, hf]

theorem grow_snake_loop_same (n : Nat) (s1 s2 : Snake) (hs : same_snake s1 s2) :
    same_snake (grow_snake_loop n s1) (grow_snake_loop n s2) := by
  induction n generalizing s1 s2 with
  | zero => exact hs
  | succ n ih =>
    simp only [grow_snake_loop]
    apply ih
    obtain ⟨hb, hl, hd⟩ := hs
    rw [← hl]
    split_ifs
    · exact ⟨hb, rfl, hd⟩
    · exact ⟨hb, hl, hd⟩

theorem grow_snake_same (s1 s2 : Snake) (amount : Int) (hs : same_snake s1 s2) :
    same_snake (grow_snake s1 amount) (grow_snake s2 amount) :=
  grow_snake_loop_same _ s1 s2 hs

theorem grow_snake_length_le (snake : Snake) (amount : Int)
    (h : snake.length ≤ MAX_SNAKE_LENGTH) :
    (grow_snake snake amount).length ≤ MAX_SNAKE_LENGTH :=
  (grow_snake_length_bounds snake amount h).2

theorem add_obstacle_same (g1 g2 : GameState) (w : World) (h : same_in_range g1 g2)
    (hlen : g1.snake.length ≤ MAX_SNAKE_LENGTH) :
    same_in_range (add_obstacle g1 w).1 (add_obstacle g2 w).1 ∧
    (add_obstacle g1 w).2 = (add_obstacle g2 w).2 := by
  obtain ⟨hs, hf, ho, hb, hsc, hst, hap, hsp⟩ := h
  unfold add_obstacle
  dsimp only
  rw [← ho.2]
  by_cases hfull : g1.obstacles.count ≥ MAX_OBSTACLES
  · rw [if_pos hfull, if_pos hfull]
    exact ⟨⟨hs, hf, ho, hb, hsc, hst, hap, hsp⟩, rfl⟩
  · rw [if_neg hfull, if_neg hfull,
      ← add_obstacle_loop_same g1 g2 hs ho hf hlen (le_of_lt (not_le.mp hfull))]
    split_ifs
    · refine ⟨⟨hs, hf, ⟨fun i hi => ?_, ?_⟩, hb, hsc, hst, hap, hsp⟩, rfl⟩
      · show Function.update g1.obstacles.obstacles _ _ i
          = Function.update g2.obstacles.obstacles _ _ i
        by_cases hi2 : i = g1.obstacles.count.toNat
        · rw [hi2, Function.update_same, Function.update_same]
        · rw [Function.update_noteq hi2, Function.update_noteq hi2]
          exact ho.1 i hi
      · rfl
    · exact ⟨⟨hs, hf, ho, hb, hsc, hst, hap, hsp⟩, rfl⟩

theorem handle_food_eaten_same (g1 g2 : GameState) (w : World) (h : same_in_range g1 g2)
    (hlen : g1.snake.length ≤ MAX_SNAKE_LENGTH) :
    same_in_range (handle_food_eaten g1 w).1 (handle_food_eaten g2 w).1 ∧
    (handle_food_eaten g1 w).2 = (handle_food_eaten g2 w).2 := by
  obtain ⟨hs, hf, ho, hb, hsc, hst, hap, hsp⟩ := h
  have hsp2 : ∀ i : Nat, i < 4 →
      Function.update g1.special_apples_eaten g1.food.type.toNat
        (g1.special_apples_eaten g1.food.type.toNat + 1) i =
      Function.update g2.special_apples_eaten g1.food.type.toNat
        (g2.special_apples_eaten g1.food.type.toNat + 1) i := by
    intro i hi
    by_cases hi2 : i = g1.food.type.toNat
    · rw [← hi2, Function.update_same, Function.update_same, hsp i hi]
    · rw [Function.update_noteq hi2, Function.update_noteq hi2]
      exact hsp i hi
  have hg1 := grow_snake_same g1.snake g2.snake 1 hs
  have hg2 := grow_snake_same g1.snake g2.snake 2 hs
  unfold handle_food_eaten
  dsimp only
  rw [← hf, ← hsc, ← hap, ← hb]
  split_ifs with t1 t2 t3 t4
  · exact ⟨⟨hg1, rfl, ho, rfl, rfl, hst, rfl, hsp2⟩, rfl⟩
  · exact ⟨⟨hg2, rfl, ho, rfl, rfl, hst, rfl, hsp2⟩, rfl⟩
  · exact ⟨⟨hg1, rfl, ho, rfl, rfl, hst, rfl, hsp2⟩, rfl⟩
  · have key := add_obstacle_same
      { g1 with
        apples_eaten := g1.apples_eaten + 1
        special_apples_eaten :=
          Function.update g1.special_apples_eaten g1.food.type.toNat
            (g1.special_apples_eaten g1.food.type.toNat + 1)
        score := g1.score + 15
        snake := grow_snake g1.snake 1 }
      { g2 with
        apples_eaten := g1.apples_eaten + 1
        special_apples_eaten :=
          Function.update g2.special_apples_eaten g1.food.type.toNat
            (g2.special_apples_eaten g1.food.type.toNat + 1)
        score := g1.score + 15
        snake := grow_snake g2.snake 1
        food := g1.food
        speed_boost := g1.speed_boost } w
      ⟨hg1, rfl, ho, rfl, rfl, hst, rfl, hsp2⟩ (grow_snake_length_le g1.snake 1 hlen)
    obtain ⟨⟨k1, k2, k3, k4, k5, k6, k7, k8⟩, kw⟩ := key
    exact ⟨⟨k1, by show Food.mk _ _ _ = Food.mk _ _ _; rw [k2], k3, k4, k5, k6, k7, k8⟩, kw⟩
  · exact ⟨⟨hs, rfl, ho, rfl, rfl, hst, rfl, hsp2⟩, rfl⟩

theorem handle_food_eaten_bounds (game : GameState) (w : World)
    (hlen : game.snake.length ≤ MAX_SNAKE_LENGTH)
    (hcount : game.obstacles.count ≤ MAX_OBSTACLES) :
    (handle_food_eaten game w).1.snake.length ≤ MAX_SNAKE_LENGTH ∧
    (handle_food_eaten game w).1.obstacles.count ≤ MAX_OBSTACLES := by
  constructor
  · rcases handle_food_eaten_snake game w with e | e | e
    · rw [e]
      exact hlen
    · rw [e]
      exact grow_snake_length_le _ _ hlen
    · rw [e]
      exact grow_snake_length_le _ _ hlen
  · rcases (handle_food_eaten_obstacles game w).1 with e | ⟨hlt, e⟩
    · rw [e]
      exact hcount
    · rw [e]
      have hlt2 : game.obstacles.count < 20 := hlt
      show game.obstacles.count + 1 ≤ 20
      omega

/-- The replacement step of `update_game` reads the arrays only inside their ranges. -/
theorem replace_food_same (r1 r2 : GameState × World) (h : same_in_range r1.1 r2.1)
    (hw : r1.2 = r2.2) (hlen : r1.1.snake.length ≤ MAX_SNAKE_LENGTH)
    (hcount : r1.1.obstacles.count ≤ MAX_OBSTACLES) :
    same_in_range
      (if r1.1.food.active = 0 then
        (({ r1.1 with food := (generate_food r1.1.snake r1.1.obstacles r1.1.food r1.2).1 },
          (generate_food r1.1.snake r1.1.obstacles r1.1.food r1.2).2) : GameState × World)
      else r1).1
      (if r2.1.food.active = 0 then
        (({ r2.1 with food := (generate_food r2.1.snake r2.1.obstacles r2.1.food r2.2).1 },
          (generate_food r2.1.snake r2.1.obstacles r2.1.food r2.2).2) : GameState × World)
      else r2).1 ∧
    (if r1.1.food.active = 0 then
        (({ r1.1 with food := (generate_food r1.1.snake r1.1.obstacles r1.1.food r1.2).1 },
          (generate_food r1.1.snake r1.1.obstacles r1.1.food r1.2).2) : GameState × World)
      else r1).2 =
    (if r2.1.food.active = 0 then
        (({ r2.1 with food := (generate_food r2.1.snake r2.1.obstacles r2.1.food r2.2).1 },
          (generate_food r2.1.snake r2.1.obstacles r2.1.food r2.2).2) : GameState × World)
      else r2).2 := by
  have hgen := generate_food_same r1.1.snake r2.1.snake r1.1.obstacles r2.1.obstacles
    r1.1.food r1.2 h.1 h.2.2.1 hlen hcount
  obtain ⟨hs, hf, ho, hb, hsc, hst, hap, hsp⟩ := h
  rw [← hf, ← hw, ← hgen]
  split_ifs
  · exact ⟨⟨hs, rfl, ho, hb, hsc, hst, hap, hsp⟩, rfl⟩
  · exact ⟨⟨hs, hf, ho, hb, hsc, hst, hap, hsp⟩, hw⟩

theorem update_game_food_same (g1 g2 : GameState) (w : World) (h : same_in_range g1 g2)
    (hlen : g1.snake.length ≤ MAX_SNAKE_LENGTH)
    (hcount : g1.obstacles.count ≤ MAX_OBSTACLES) :
    same_in_range (update_game_food g1 w).1 (update_game_food g2 w).1 ∧
    (update_game_food g1 w).2 = (update_game_food g2 w).2 := by
  unfold update_game_food
  dsimp only
  rw [← h.2.1, ← check_food_collision_same g1.snake g2.snake g1.food h.1]
  cases check_food_collision g1.snake g1.food
  · simp only [Bool.false_eq_true, if_false]
    exact replace_food_same (g1, w) (g2, w) h rfl hlen hcount
  · simp only [if_true]
    obtain ⟨hb1, hb2⟩ := handle_food_eaten_bounds g1 w hlen hcount
    obtain ⟨k1, k2⟩ := handle_food_eaten_same g1 g2 w h hlen
    exact replace_food_same (handle_food_eaten g1 w) (handle_food_eaten g2 w) k1 k2 hb1 hb2

theorem update_game_boost_same (g1 g2 : GameState) (w : World) (h : same_in_range g1 g2) :
    same_in_range (update_game_boost g1 w).1 (update_game_boost g2 w).1 ∧
    (update_game_boost g1 w).2 = (update_game_boost g2 w).2 := by
  obtain ⟨hs, hf, ho, hb, hsc, hst, hap, hsp⟩ := h
  unfold update_game_boost
  dsimp only
  rw [← hb]
  split_ifs
  · exact ⟨⟨hs, hf, ho, rfl, hsc, hst, hap, hsp⟩, rfl⟩
  · exact ⟨⟨hs, hf, ho, hb, hsc, hst, hap, hsp⟩, rfl⟩
  · exact ⟨⟨hs, hf, ho, hb, hsc, hst, hap, hsp⟩, rfl⟩

/-- A tick reads the arrays only inside their ranges: two games that agree inside the
ranges give the same status, the same world and games that agree inside the ranges. -/
theorem update_game_same (g1 g2 : GameState) (w : World) (h : same_in_range g1 g2)
    (hlen : g1.snake.length ≤ MAX_SNAKE_LENGTH)
    (hcount : g1.obstacles.count ≤ MAX_OBSTACLES) :
    (update_game g1 w).ret = (update_game g2 w).ret ∧
    (update_game g1 w).world = (update_game g2 w).world ∧
    same_in_range (update_game g1 w).game (update_game g2 w).game := by
  have hmove := update_snake_position_same g1.snake g2.snake h.1
  have hcol := check_collision_same (update_snake_position g1.snake)
    (update_snake_position g2.snake) g1.obstacles g2.obstacles hmove h.2.2.1 hlen hcount
  obtain ⟨hs, hf, ho, hb, hsc, hst, hap, hsp⟩ := h
  have hmoved : same_in_range { g1 with snake := update_snake_position g1.snake }
      { g2 with snake := update_snake_position g2.snake } :=
    ⟨hmove, hf, ho, hb, hsc, hst, hap, hsp⟩
  rcases update_game_cases g1 w with ⟨c1, e1⟩ | ⟨c1, l1, e1⟩ | ⟨c1, l1, e1⟩
  · rw [e1, update_game_over_eq g2 w (hcol ▸ c1)]
    exact ⟨rfl, rfl, hmove, hf, ho, hb, hsc, rfl, hap, hsp⟩
  · rw [e1, update_game_won_eq g2 w (hcol ▸ c1) (hs.2.1 ▸ l1)]
    exact ⟨rfl, rfl, hmove, hf, ho, hb, hsc, rfl, hap, hsp⟩
  · rw [e1, update_game_running g2 w (hcol ▸ c1) (hs.2.1 ▸ l1)]
    obtain ⟨k1, k2⟩ := update_game_food_same _ _ w hmoved hlen hcount
    have k3 := update_game_boost_same _ _
      (update_game_food { g1 with snake := update_snake_position g1.snake } w).2 k1
    rw [← k2]
    exact ⟨rfl, k3.2, k3.1⟩

theorem update_game_body (game : GameState) (w : World) :
    (update_game game w).game.snake.body = (update_snake_position game.snake).body := by
  rcases update_game_cases game w with ⟨-, h⟩ | ⟨-, -, h⟩ | ⟨-, -, h⟩
  · rw [h]
  · rw [h]
  · rw [h]
    obtain ⟨bsn, -⟩ := update_game_boost_frame
      (update_game_food { game with snake := update_snake_position game.snake } w).1
      (update_game_food { game with snake := update_snake_position game.snake } w).2
    obtain ⟨mid, hmid, hsn, -⟩ :=
      update_game_food_split { game with snake := update_snake_position game.snake } w
    simp only [bsn, hsn]
    rcases hmid with ⟨rfl, -⟩ | ⟨rfl, -⟩
    · rcases handle_food_eaten_snake
        { game with snake := update_snake_position game.snake } w with e | e | e
      · rw [e]
      · rw [e]
        exact (grow_snake_loop_body _ _).1
      · rw [e]
        exact (grow_snake_loop_body _ _).1
    · rfl

theorem add_obstacle_writes (game : GameState) (w : World) (i : Nat)
    (hi : i ≠ game.obstacles.count.toNat ∨ game.obstacles.count ≥ MAX_OBSTACLES) :
    (add_obstacle game w).1.obstacles.obstacles i = game.obstacles.obstacles i := by
  unfold add_obstacle
  dsimp only
  split_ifs with h1 h2
  · rfl
  · rcases hi with hi | hi
    · dsimp only
      rw [Function.update_noteq hi]
    · exact absurd hi h1
  · rfl

theorem handle_food_eaten_writes (game : GameState) (w : World) (i : Nat)
    (hi : i ≠ game.obstacles.count.toNat ∨ game.obstacles.count ≥ MAX_OBSTACLES) :
    (handle_food_eaten game w).1.obstacles.obstacles i = game.obstacles.obstacles i := by
  unfold handle_food_eaten
  dsimp only
  split_ifs
  · rfl
  · rfl
  · rfl
  · exact add_obstacle_writes _ w i hi
  · rfl

theorem update_game_obstacle_writes (game : GameState) (w : World) (i : Nat)
    (hi : i ≠ game.obstacles.count.toNat ∨ game.obstacles.count ≥ MAX_OBSTACLES) :
    (update_game game w).game.obstacles.obstacles i = game.obstacles.obstacles i := by
  rcases update_game_cases game w with ⟨-, h⟩ | ⟨-, -, h⟩ | ⟨-, -, h⟩
  · rw [h]
  · rw [h]
  · rw [h]
    obtain ⟨-, -, bobs, -⟩ := update_game_boost_frame
      (update_game_food { game with snake := update_snake_position game.snake } w).1
      (update_game_food { game with snake := update_snake_position game.snake } w).2
    obtain ⟨mid, hmid, -, hobs, -⟩ :=
      update_game_food_split { game with snake := update_snake_position game.snake } w
    simp only [bobs, hobs]
    rcases hmid with ⟨rfl, -⟩ | ⟨rfl, -⟩
    · exact handle_food_eaten_writes
        { game with snake := update_snake_position game.snake } w i hi
    · rfl

theorem update_game_counter_writes (game : GameState) (w : World) (i : Nat)
    (hi : i ≠ game.food.type.toNat) :
    (update_game game w).game.special_apples_eaten i = game.special_apples_eaten i := by
  rcases update_game_cases game w with ⟨-, h⟩ | ⟨-, -, h⟩ | ⟨-, -, h⟩
  · rw [h]
  · rw [h]
  · rw [h]
    obtain ⟨-, -, -, -, -, -, bsp⟩ := update_game_boost_frame
      (update_game_food { game with snake := update_snake_position game.snake } w).1
      (update_game_food { game with snake := update_snake_position game.snake } w).2
    obtain ⟨mid, hmid, -, -, -, -, -, -, hsp, -⟩ :=
      update_game_food_split { game with snake := update_snake_position game.snake } w
    simp only [bsp, hsp]
    rcases hmid with ⟨rfl, -⟩ | ⟨rfl, -⟩
    · rw [handle_food_eaten_special]
      exact Function.update_noteq hi _ _
    · rfl

/-- C25: for a game with `1 ≤ snake.length ≤ MAX_SNAKE_LENGTH`,
`0 ≤ obstacles.count ≤ MAX_OBSTACLES` and a food type among the four, and every random
source and clock, the game after `update_game` satisfies the same three bounds, and every
index into `body`, `obstacles` and `special_apples_eaten` made during the tick is in
range.  No write is out of range: the body slots from the old length on, the obstacle
slots other than slot `count` (and every slot from `MAX_OBSTACLES` on) and the counters
other than the one of the food type (and every counter from 4 on) are as before.  No read
is out of range: a game that differs only in slots beyond the arrays gets the same
status, leaves the same random source and clock, and agrees afterwards on every field
and every slot inside the arrays. -/
theorem update_game_well_formed (game : GameState) (w : World)
    (hlen : 1 ≤ game.snake.length ∧ game.snake.length ≤ MAX_SNAKE_LENGTH)
    (hcount : 0 ≤ game.obstacles.count ∧ game.obstacles.count ≤ MAX_OBSTACLES)
    (htype : game.food.type = FOOD_REGULAR ∨ game.food.type = FOOD_GREEN ∨
      game.food.type = FOOD_GOLD ∨ game.food.type = FOOD_BLUE) :
    (1 ≤ (update_game game w).game.snake.length ∧
      (update_game game w).game.snake.length ≤ MAX_SNAKE_LENGTH) ∧
    (0 ≤ (update_game game w).game.obstacles.count ∧
      (update_game game w).game.obstacles.count ≤ MAX_OBSTACLES) ∧
    ((update_game game w).game.food.type = FOOD_REGULAR ∨
      (update_game game w).game.food.type = FOOD_GREEN ∨
      (update_game game w).game.food.type = FOOD_GOLD ∨
      (update_game game w).game.food.type = FOOD_BLUE) ∧
    (∀ i : Nat, game.snake.length ≤ (i : Int) →
      (update_game game w).game.snake.body i = game.snake.body i) ∧
    (∀ i : Nat, MAX_OBSTACLES ≤ (i : Int) ∨ (i : Int) ≠ game.obstacles.count →
      (update_game game w).game.obstacles.obstacles i = game.obstacles.obstacles i) ∧
    (∀ i : Nat, 4 ≤ i ∨ (i : Int) ≠ game.food.type →
      (update_game game w).game.special_apples_eaten i = game.special_apples_eaten i) ∧
    (∀ other : GameState, same_in_range game other →
      (update_game game w).ret = (update_game other w).ret ∧
      (update_game game w).world = (update_game other w).world ∧
      same_in_range (update_game game w).game (update_game other w).game) := by
  obtain ⟨b1, b2, b3⟩ := update_game_keeps_bounds game w hlen hcount htype
  refine ⟨b1, b2, b3, fun i hi => ?_, fun i hi => ?_, fun i hi => ?_, fun other hsame => ?_⟩
  · rw [update_game_body, update_snake_position_body]
    have h1 := hlen.1
    rw [if_neg (by omega), if_neg (by omega)]
  · apply update_game_obstacle_writes
    have h0 := hcount.1
    have hmax : MAX_OBSTACLES = 20 := rfl
    rw [hmax] at hi ⊢
    omega
  · apply update_game_counter_writes
    have e0 : FOOD_REGULAR = 0 := rfl
    have e1 : FOOD_GREEN = 1 := rfl
    have e2 : FOOD_GOLD = 2 := rfl
    have e3 : FOOD_BLUE = 3 := rfl
    rw [e0, e1, e2, e3] at htype
    omega
  · exact update_game_same game other w hsame hlen.2 hcount.2

/-- C25 at a concrete state: three segments, two obstacles, Blue food eaten; afterwards
four segments, three obstacles, and the slots beyond the arrays (`body[51]`,
`obstacles[20]`, `special_apples_eaten[4]`) hold what they held. -/
theorem update_game_well_formed_witness :
    (update_game eat_blue_with_obstacles counting_world).game.snake.length
      ≤ MAX_SNAKE_LENGTH ∧
    (update_game eat_blue_with_obstacles counting_world).game.obstacles.count
      ≤ MAX_OBSTACLES ∧
    (update_game eat_blue_with_obstacles counting_world).game.snake.body 51
      = eat_blue_with_obstacles.snake.body 51 ∧
    (update_game eat_blue_with_obstacles counting_world).game.obstacles.obstacles 20
      = eat_blue_with_obstacles.obstacles.obstacles 20 ∧
    (update_game eat_blue_with_obstacles counting_world).game.special_apples_eaten 4
      = eat_blue_with_obstacles.special_apples_eaten 4 ∧
    (update_game eat_blue_with_obstacles counting_world).game.snake.length = 4 ∧
    (update_game eat_blue_with_obstacles counting_world).game.obstacles.count = 3 :=
  have h := update_game_well_formed eat_blue_with_obstacles counting_world (by decide)
    (by decide) (by decide)
  ⟨h.1.2, h.2.1.2, h.2.2.2.1 51 (by decide), h.2.2.2.2.1 20 (Or.inl (by decide)),
    h.2.2.2.2.2.1 4 (Or.inl (by decide)), by decide, by decide⟩

end SnakeGame
